import Mathlib

/-!
WebTransfer: the client and the server transfer engine.

Shallow embedding of `Source/websocket/WebTransfer.h` (`ClientTransferType` with its
private `Channel`, and `ServerTransferType`).  Stateful C++ becomes explicit state
passing over the records `ClientTransferType` and `ServerTransferType`; every call that
leaves an engine (the hooks `Setup`, `Transfered` and `Authorize`, the downcalls
`Submit`, `Open`, `Close`, `Flush` into the framing layer, and for the server the
operations on its file-body) is appended to the `trace` of the record, for the client
together with the `_state` the callee can observe at that moment.  The answers of the
collaborators that are not part of this header (the link predicates, the result of
`Open`, of `Setup` and of `Authorize`, the file system) are inputs.

`ASSERT(...)` is a debugging aid that does not alter the control flow of a release
build; the step functions below do not branch on it.
-/

namespace WPEFramework

namespace Core

/-- Result codes of `Core::` (`uint32_t` constants).  The seven named constants are the
ones this header mentions; `ERROR_OTHER` stands for every further code the framing
layer may return from `Open`. -/
inductive ErrorCode where
  | ERROR_NONE
  | ERROR_INPROGRESS
  | ERROR_INCORRECT_URL
  | ERROR_COULD_NOT_SET_ADDRESS
  | ERROR_UNAVAILABLE
  | ERROR_WRITE_ERROR
  | ERROR_INCORRECT_HASH
  | ERROR_OTHER (code : Nat)
  deriving DecidableEq, Repr

/-- The constant `Core::infinite`, the largest `uint32_t`. -/
def infinite : Nat := 4294967295

/-- Modelled from the spec: the URL type (`Core::URL`, declared in `URL.h`), as far as
the engine reads it: `IsValid()`, `Path().Value()` and `Host().Value()`. -/
structure URL where
  IsValid : Bool
  Path : String
  Host : String
  deriving DecidableEq, Repr

/-- Modelled from the spec: the hash accessor of a file-body, "a resettable,
feed-input/finalize hasher with a kind tag".  `algorithm` is the digest function of the
bytes fed since the last reset, `fed` the chunks given to `Input` since then. -/
structure HashType where
  kind : Nat
  algorithm : List Nat → List Nat
  fed : List (List Nat)

/-- Modelled from the spec: `reset()` of the hasher, the call `hash.Reset()`. -/
def HashType.Reset (h : HashType) : HashType := { h with fed := [] }

/-- Modelled from the spec: `input(buf, n)` of the hasher, the call
`hash.Input(buffer, length)`; `data` are the first `length` bytes of `buffer`. -/
def HashType.Input (h : HashType) (data : List Nat) : HashType :=
  { h with fed := h.fed ++ [data] }

/-- Modelled from the spec: `result()` of the hasher, the call `hash.Result()`: the
digest of everything fed since the last reset. -/
def HashType.Result (h : HashType) : List Nat := h.algorithm h.fed.flatten

/-- Modelled from the spec: `Core::File`, the file part of the file-body contract
(`size()`, `position() / set_position()`, `serialize(buf, n)`, `is_open()`,
`is_read_only()`, `assign(path)`, `exists()`).  `Size` is the size `Size()` answers (the
file information loaded last), `stored` the size the file system holds, `byteAt` the
content by offset, `Position` the cursor, `Name` the path the file is assigned to and
`Exists` whether the file system holds a file of that name. -/
structure File where
  IsOpen : Bool
  IsReadOnly : Bool
  Size : Nat
  stored : Nat
  byteAt : Nat → Nat
  Position : Nat
  Name : String := ""
  Exists : Bool := true

/-- Modelled from the spec: `size()` of the file-body contract after
`Core::File::LoadFileInfo()`, which reloads the file information from the file system:
`Size()` then answers the size the file system holds. -/
def File.LoadFileInfo (f : File) : File := { f with Size := f.stored }

/-- Modelled from the spec: `set_position(from_end: bool, offset)` with `from_end` false,
the calls `Position(false, offset)` and `Position(offset)` of the source: the cursor is
set to the absolute `offset`. -/
def File.SetPosition (f : File) (offset : Nat) : File := { f with Position := offset }

/-- Modelled from the spec: `serialize(buf, n)` "read n bytes at cursor advancing it".
Returns the bytes written to `buf` and the file with the cursor moved. -/
def File.Serialize (f : File) (n : Nat) : List Nat × File :=
  ((List.range n).map (fun i => f.byteAt (f.Position + i)), { f with Position := f.Position + n })

/-- The `n` bytes of the file from offset `start` on. -/
def File.content (f : File) (start n : Nat) : List Nat :=
  (List.range n).map (fun i => f.byteAt (start + i))

/-- Modelled from the spec: `close()` of the file-body contract: the file is no longer
open. -/
def File.Close (f : File) : File := { f with IsOpen := false }

/-- Modelled from the spec: `destroy()` of the file-body contract: the file is closed and
removed from the file system. -/
def File.Destroy (f : File) : File := { f with IsOpen := false, Exists := false }

/-- Modelled from the spec: `create()` of the file-body contract.  `ok` is whether the
file system lets the file be created; when it does the file exists, is open for
writing and empty. -/
def File.Create (f : File) (ok : Bool) : Bool × File :=
  if ok = true then
    (true, { f with IsOpen := true, IsReadOnly := false, Exists := true, Size := 0,
                    stored := 0, Position := 0 })
  else (false, f)

end Core

namespace Web

open Core Core.ErrorCode

/-- Status `Web::STATUS_OK`. -/
def STATUS_OK : Nat := 200
/-- Status `Web::STATUS_BAD_REQUEST`. -/
def STATUS_BAD_REQUEST : Nat := 400
/-- Status `Web::STATUS_UNAUTHORIZED`. -/
def STATUS_UNAUTHORIZED : Nat := 401
/-- Status `Web::STATUS_NOT_FOUND`. -/
def STATUS_NOT_FOUND : Nat := 404

/-- Modelled from the spec: `Signature`, "pair of (hash-kind tag, hash-digest bytes)". -/
structure Signature where
  kind : Nat
  digest : List Nat
  deriving DecidableEq, Repr

/-- Modelled from the spec: `Signature::Equal(type, value)`, "equality is tag-plus-digest
equality". -/
def Signature.Equal (sig : Signature) (type : Nat) (value : List Nat) : Bool :=
  decide (sig.kind = type) && decide (sig.digest = value)

/-- Identity of an object a `Core::ProxyType` handle can designate. -/
inductive Object where
  | _request
  | _fileBody
  | foreign (id : Nat)
  deriving DecidableEq, Repr

/-- A `Core::ProxyType<T>` handle by identity; `none` is the handle for which
`IsValid()` is false. -/
abbrev ProxyType := Option Object

/-- The verbs of `Web::Request`: the two this header names, and further ones that it
treats alike. -/
inductive Verb where
  | HTTP_GET
  | HTTP_PUT
  | HTTP_POST
  | HTTP_DELETE
  | HTTP_UNKNOWN
  deriving DecidableEq, Repr

/-- Modelled from the spec: `Web::Request` (declared in `WebSerializer.h`), "verb, path,
host, optional body reference, optional content signature". -/
structure Request where
  Verb : Verb
  Path : String
  Host : String
  Body : ProxyType
  ContentSignature : Option Signature
  deriving DecidableEq, Repr

/-- Modelled from the spec: `Web::Response` (declared in `WebSerializer.h`), "numeric
status code, optional content-length, optional content signature, optional body
reference", and the `Message` text the server engine writes. -/
structure Response where
  ErrorCode : Nat
  ContentLength : Option Nat
  ContentSignature : Option Signature
  Body : ProxyType
  Message : String := ""
  deriving DecidableEq, Repr

/-- The template parameter `FILEBODY`: a `Core::File` with, when the type has the `Hash`
member (`TraitHasHash::value`), its hasher.  `Hash = none` is a `FILEBODY` without the
hash capability. -/
structure FileBody where
  file : File
  Hash : Option HashType

/-- Modelled from the spec: "assign the file into the file-body", the assignment
`static_cast<FILEBODY&>(_fileBody) = file`: the file part is replaced, the hasher is
kept. -/
def FileBody.assign (b : FileBody) (f : File) : FileBody := { b with file := f }

/-- The enumeration `enumTransferState`. -/
inductive enumTransferState where
  | TRANSFER_IDLE
  | TRANSFER_UPLOAD
  | TRANSFER_DOWNLOAD
  deriving DecidableEq, Repr

open enumTransferState Verb

/-- A call that leaves the engine: the two virtual hooks and the downcalls into
`BaseClass` (`WebLinkType`).  `Submit` carries the value of the submitted request,
`none` when the submitted handle is not valid. -/
inductive Call where
  | Setup (remote : URL)
  | Transfered (result : ErrorCode) (file : Object)
  | Submit (request : Option Request)
  | Open (waitTime : Nat)
  | Close (waitTime : Nat)
  | Flush
  deriving DecidableEq, Repr

/-- The answers of `BaseClass::IsOpen()`, `IsClosed()` and `IsSuspended()`. -/
structure LinkState where
  IsOpen : Bool
  IsClosed : Bool
  IsSuspended : Bool
  deriving DecidableEq, Repr

/-- What the collaborators outside this header answer during one call of `Upload` or
`Download`: the `Setup` hook, the link predicates and the result of `BaseClass::Open`. -/
structure World where
  Setup : URL → Bool
  link : LinkState
  Open : Nat → ErrorCode

/-- The members `_request` and `_response` of `ClientTransferType::Channel`. -/
structure ClientTransferType.Channel where
  _request : ProxyType
  _response : Option Response

/-- The members of `ClientTransferType` (`_adminLock` apart), and the trace of the calls
that left the engine, each with the `_state` at the moment of the call. -/
structure ClientTransferType where
  _state : enumTransferState
  _request : Request
  _fileBody : FileBody
  _channel : ClientTransferType.Channel
  trace : List (Call × enumTransferState)

namespace ClientTransferType

/-- Records a call that leaves the engine, with the `_state` visible at that moment. -/
def call (s : ClientTransferType) (c : Call) : ClientTransferType :=
  { s with trace := s.trace ++ [(c, s._state)] }

/-- The request a handle designates: the engine's own `_request` for the handle made by
`Core::ProxyType<Web::Request>(_request)`. -/
def deref (s : ClientTransferType) (p : ProxyType) : Option Request :=
  match p with
  | some Object._request => some s._request
  | _ => none

/-- The method `FileSize()`. -/
def FileSize (s : ClientTransferType) : Nat := s._fileBody.file.Size

/-- The method `Transferred()`. -/
def Transferred (s : ClientTransferType) : Nat := s._fileBody.file.Position

/-- The loop `while (size > 0)` of `_CalculateHash`.  The first argument bounds the
number of passes; every pass takes at least one byte off `size`, so `size` passes are
always enough (`_CalculateHash.loop_fuel`). -/
def _CalculateHash.loop : Nat → Nat → File × HashType → File × HashType
  | 0, _, st => st
  | fuel + 1, size, st =>
    if size > 0 then
      let chunk := min 64 size
      let (buffer, file) := st.1.Serialize chunk
      let hash := st.2.Input (buffer.take chunk)
      _CalculateHash.loop fuel (size - chunk) (file, hash)
    else st

/-- The method `_CalculateHash(request)`: the hashing variant when `FILEBODY` has the
`Hash` member, the empty variant otherwise.  `pos` and `size` are `uint32_t`, `Position()`
and `Size()` are `uint64_t`. -/
def _CalculateHash (s : ClientTransferType) : ClientTransferType :=
  match s._fileBody.Hash with
  | none => s
  | some hash =>
    let pos := s._fileBody.file.Position % 2 ^ 32
    let size := (s._fileBody.file.Size % 2 ^ 64 + 2 ^ 64 - pos) % 2 ^ 64 % 2 ^ 32
    let hash := hash.Reset
    let (file, hash) := _CalculateHash.loop size size (s._fileBody.file, hash)
    let file := file.SetPosition pos
    { s with
      _fileBody := { file := file, Hash := some hash }
      _request := { s._request with ContentSignature := some ⟨hash.kind, hash.Result⟩ } }

/-- The method `_ValidateHash(signature)`: the hashing variant when `FILEBODY` has the
`Hash` member, the variant that returns true otherwise. -/
def _ValidateHash (s : ClientTransferType) (signature : Option Signature) : Bool :=
  match s._fileBody.Hash with
  | none => true
  | some hash =>
    (signature.isSome == false) || (match signature with
      | some sig => sig.Equal hash.kind hash.Result == true
      | none => false)

/-- The method `Channel::StartTransfer(request)`. -/
def Channel.StartTransfer (w : World) (s : ClientTransferType) (request : ProxyType) :
    ErrorCode × ClientTransferType :=
  if w.link.IsOpen = true then
    (ERROR_NONE, s.call (Call.Submit (s.deref request)))
  else
    let s := { s with _channel := { s._channel with _request := request } }
    (w.Open 0, s.call (Call.Open 0))

/-- The two assertions at the start of `Channel::StartTransfer`:
`_request.IsValid() == false` and `_response.IsValid() == false`. -/
def Channel.StartTransfer.ASSERT (s : ClientTransferType) : Bool :=
  (s._channel._request.isSome == false) && (s._channel._response.isSome == false)

/-- The method `Channel::Close()`. -/
def Channel.Close (s : ClientTransferType) : ClientTransferType :=
  let s := s.call (Call.Close Core.infinite)
  let s := s.call Call.Flush
  let s := if s._channel._request.isSome = true then
    { s with _channel := { s._channel with _request := none } } else s
  if s._channel._response.isSome = true then
    { s with _channel := { s._channel with _response := none } } else s

/-- The method `Upload(destination, source)`. -/
def Upload (w : World) (s : ClientTransferType) (destination : URL) (source : File) :
    ErrorCode × ClientTransferType :=
  if s._state = TRANSFER_IDLE then
    if destination.IsValid = true then
      let s := s.call (Call.Setup destination)
      if w.Setup destination = true then
        let s := { s with _fileBody := s._fileBody.assign source }
        let s := { s with _state := TRANSFER_UPLOAD }
        let s := { s with _request := { s._request with
                      Verb := HTTP_PUT
                      Path := "/" ++ destination.Path
                      Host := destination.Host
                      Body := some Object._fileBody } }
        let s := s._CalculateHash
        Channel.StartTransfer w s (some Object._request)
      else (ERROR_COULD_NOT_SET_ADDRESS, s)
    else (ERROR_INCORRECT_URL, s)
  else (ERROR_INPROGRESS, s)

/-- The method `Download(source, destination)`. -/
def Download (w : World) (s : ClientTransferType) (source : URL) (destination : File) :
    ErrorCode × ClientTransferType :=
  if s._state = TRANSFER_IDLE then
    if source.IsValid = true then
      let s := s.call (Call.Setup source)
      if w.Setup source = true then
        let s := { s with _fileBody := s._fileBody.assign destination }
        let s := { s with _fileBody := { s._fileBody with file := s._fileBody.file.SetPosition 0 } }
        let s := { s with _state := TRANSFER_DOWNLOAD }
        let s := { s with _request := { s._request with
                      Verb := HTTP_GET
                      Path := "/" ++ source.Path
                      Host := source.Host } }
        Channel.StartTransfer w s (some Object._request)
      else (ERROR_COULD_NOT_SET_ADDRESS, s)
    else (ERROR_INCORRECT_URL, s)
  else (ERROR_INPROGRESS, s)

/-- The method `Close()`. -/
def Close (s : ClientTransferType) : ClientTransferType := Channel.Close s

/-- The status `EndTransfer` computes for a valid response, on the engine whose file
information has been reloaded. -/
def EndTransfer.errorCode (s : ClientTransferType) (response : Response) : ErrorCode :=
  if response.ErrorCode = STATUS_NOT_FOUND then ERROR_UNAVAILABLE
  else if (response.ErrorCode = STATUS_OK ∧ s._state = TRANSFER_DOWNLOAD) ∧
      ((s.Transferred = 0 ∧ s.FileSize = 0) ∨ s.FileSize < s.Transferred) then ERROR_WRITE_ERROR
  else if response.ErrorCode = STATUS_UNAUTHORIZED ∨
      (s._state = TRANSFER_DOWNLOAD ∧ s._ValidateHash response.ContentSignature = false) then
    ERROR_INCORRECT_HASH
  else ERROR_NONE

/-- The method `EndTransfer(response)`.  `response` is passed by reference; the second
component is the handle after the call (`response.Release()` makes it invalid). -/
def EndTransfer (s : ClientTransferType) (response : Option Response) :
    ClientTransferType × Option Response :=
  let (errorCode, s, response) :=
    match response with
    | some r =>
      let s := { s with _fileBody := { s._fileBody with file := s._fileBody.file.LoadFileInfo } }
      (EndTransfer.errorCode s r, s, (none : Option Response))
    | none => (ERROR_UNAVAILABLE, s, none)
  let s := { s with _state := TRANSFER_IDLE }
  let s := s.call (Call.Transfered errorCode Object._fileBody)
  (s, response)

/-- The method `LinkBody(element)`; `element` is passed by reference, the second
component is the response after the call. -/
def LinkBody (s : ClientTransferType) (element : Response) : ClientTransferType × Response :=
  let s := if s._state = TRANSFER_DOWNLOAD ∧ element.ContentLength.isSome = true then
    { s with _fileBody := { s._fileBody with file := s._fileBody.file.SetPosition 0 } } else s
  (s, { element with Body := some Object._fileBody })

/-- The method `Channel::LinkBody(element)`. -/
def Channel.LinkBody (s : ClientTransferType) (element : Response) :
    ClientTransferType × Response := s.LinkBody element

/-- The method `Channel::Received(response)`. -/
def Channel.Received (s : ClientTransferType) (response : Response) : ClientTransferType :=
  let s := { s with _channel := { s._channel with _response := some response } }
  s.call (Call.Close 0)

/-- The method `Channel::Send(request)`: assertions only. -/
def Channel.Send (s : ClientTransferType) (_request : ProxyType) : ClientTransferType := s

/-- The method `Channel::StateChange()`, with the link state the predicates of
`BaseClass` answer. -/
def Channel.StateChange (link : LinkState) (s : ClientTransferType) : ClientTransferType :=
  if link.IsOpen = true then
    s.call (Call.Submit (s.deref s._channel._request))
  else if s._channel._response.isSome = true ∨ link.IsClosed = true ∨ link.IsSuspended = true then
    let (s, response) := s.EndTransfer s._channel._response
    { s with _channel := { s._channel with _response := response } }
  else s

end ClientTransferType

/-- A notification the framing layer delivers to the client channel. -/
inductive Notification where
  | StateChange (link : LinkState)
  | LinkBody (element : Response)
  | Received (response : Response)
  | Send (request : ProxyType)
  deriving DecidableEq, Repr

open ClientTransferType in
/-- Delivery of one notification to the engine. -/
def deliver (s : ClientTransferType) : Notification → ClientTransferType
  | Notification.StateChange link => Channel.StateChange link s
  | Notification.LinkBody element => (Channel.LinkBody s element).1
  | Notification.Received response => Channel.Received s response
  | Notification.Send request => Channel.Send s request

/-- Delivery of a sequence of notifications, first to last. -/
def deliverAll (s : ClientTransferType) (ns : List Notification) : ClientTransferType :=
  ns.foldl deliver s

/-- Whether a traced call is the `Transfered` upcall. -/
def isTransfered : Call × enumTransferState → Bool
  | (Call.Transfered _ _, _) => true
  | _ => false

/-- Number of `Transfered` upcalls in a trace. -/
def transferedCount (t : List (Call × enumTransferState)) : Nat := t.countP isTransfered

/-- The status of the last traced call, when that call is the `Transfered` upcall. -/
def deliveredStatus (t : List (Call × enumTransferState)) : Option ErrorCode :=
  match t.getLast? with
  | some (Call.Transfered result _, _) => some result
  | _ => none

/-- The completion table of the spec, read top to bottom, first matching row: response
absent; status 404; status 401; Download with status 200 and (position 0 and size 0, or
size < position); Download and the signature fails validation; otherwise success.
`valid` is the signature validation against the local hash. -/
def statusTable (state : enumTransferState) (response : Option Response) (position size : Nat)
    (valid : Option Signature → Bool) : ErrorCode :=
  match response with
  | none => ERROR_UNAVAILABLE
  | some r =>
    if r.ErrorCode = 404 then ERROR_UNAVAILABLE
    else if r.ErrorCode = 401 then ERROR_INCORRECT_HASH
    else if state = TRANSFER_DOWNLOAD ∧ r.ErrorCode = 200 ∧
        ((position = 0 ∧ size = 0) ∨ size < position) then ERROR_WRITE_ERROR
    else if state = TRANSFER_DOWNLOAD ∧ valid r.ContentSignature = false then ERROR_INCORRECT_HASH
    else ERROR_NONE

/-- Whether a notification is a `StateChange` with the link not open. -/
def isClosing : Notification → Bool
  | Notification.StateChange link => !link.IsOpen
  | _ => false

/-! ## The server transfer engine -/

/-- A call that leaves the server engine: the `Authorize` hook, the downcalls `Submit`
and `Close` into `BaseClass`, and the operations on the file-body (assignment of a path,
`Create`, `Destroy`, `Close`). -/
inductive ServerCall where
  | Authorize (request : Request)
  | Submit (response : Response)
  | Close (waitTime : Nat)
  | Assign (path : String)
  | Create
  | Destroy
  | FileClose
  deriving DecidableEq, Repr

/-- What the collaborators outside this header answer to the server engine: the
`Authorize` hook, the file the file system holds under a path, and whether a file can be
created under a path. -/
structure ServerWorld where
  Authorize : Request → String
  lookup : String → File
  Create : String → Bool

/-- The members of `ServerTransferType`, and the trace of the calls that left the
engine. -/
structure ServerTransferType where
  _pathPrefix : String
  _fileBody : FileBody
  _response : Response
  trace : List ServerCall

namespace ServerTransferType

/-- Records a call that leaves the server engine. -/
def call (s : ServerTransferType) (c : ServerCall) : ServerTransferType :=
  { s with trace := s.trace ++ [c] }

/-- Modelled from the spec: `assign(path)` of the file-body contract, the assignment
`static_cast<FILEBODY&>(*_fileBody) = path`: the file part becomes the file the file
system holds under `path`, the hasher is kept. -/
def assign (w : ServerWorld) (s : ServerTransferType) (path : String) : ServerTransferType :=
  let s := s.call (ServerCall.Assign path)
  { s with _fileBody := { s._fileBody with file := { w.lookup path with Name := path } } }

/-- The method `_CalculateHash(request)` of the server: the hashing variant when
`FILEBODY` has the `Hash` member, the empty variant otherwise.  `pos` is `uint32_t`,
`size` is `std::size_t` (64 bits); the loop is the one of the client. -/
def _CalculateHash (s : ServerTransferType) : ServerTransferType :=
  match s._fileBody.Hash with
  | none => s
  | some hash =>
    let pos := s._fileBody.file.Position % 2 ^ 32
    let size := (s._fileBody.file.Size % 2 ^ 64 + 2 ^ 64 - pos) % 2 ^ 64
    let hash := hash.Reset
    let (file, hash) := ClientTransferType._CalculateHash.loop size size (s._fileBody.file, hash)
    let file := file.SetPosition pos
    { s with
      _fileBody := { file := file, Hash := some hash }
      _response := { s._response with ContentSignature := some ⟨hash.kind, hash.Result⟩ } }

/-- The method `_ValidateHash(signature)` of the server. -/
def _ValidateHash (s : ServerTransferType) (signature : Option Signature) : Bool :=
  match s._fileBody.Hash with
  | none => true
  | some hash =>
    (signature.isSome == false) || (match signature with
      | some sig => sig.Equal hash.kind hash.Result == true
      | none => false)

/-- The method `LinkBody(element)` of the server; `element` is passed by reference, the
second component is the request after the call. -/
def LinkBody (w : ServerWorld) (s : ServerTransferType) (element : Request) :
    ServerTransferType × Request :=
  if element.Verb = HTTP_PUT then
    let s := s.assign w (s._pathPrefix ++ element.Path)
    let s := s.call ServerCall.Create
    let (created, file) := s._fileBody.file.Create (w.Create (s._pathPrefix ++ element.Path))
    let s := { s with _fileBody := { s._fileBody with file := file } }
    if created = true then
      (s, { element with Body := some Object._fileBody })
    else (s, element)
  else (s, element)

/-- The branch of `Received` for the verb `HTTP_PUT`. -/
def Received.PUT (w : ServerWorld) (s : ServerTransferType) (element : Request) :
    ServerTransferType :=
  if s._fileBody.file.IsOpen = false then
    { s with _response := { s._response with
        ErrorCode := STATUS_NOT_FOUND
        Message := "File: " ++ element.Path ++ " could not be stored server side." } }
  else
    let s :=
      if s._ValidateHash element.ContentSignature = true then
        let s := s.call (ServerCall.Authorize element)
        let message := w.Authorize element
        if message = "" then
          { s with _response := { s._response with
              ErrorCode := STATUS_OK
              Message := "File: " ++ element.Path ++ " has been stored server side." } }
        else
          { s with _response := { s._response with
              ErrorCode := STATUS_UNAUTHORIZED
              Message := message } }
      else
        { s with _response := { s._response with
            ErrorCode := STATUS_UNAUTHORIZED
            Message := "File: " ++ element.Path ++ " has an incorrect signature." } }
    if s._response.ErrorCode ≠ STATUS_OK then
      let s := s.call ServerCall.Destroy
      { s with _fileBody := { s._fileBody with file := s._fileBody.file.Destroy } }
    else
      let s := s.call ServerCall.FileClose
      { s with _fileBody := { s._fileBody with file := s._fileBody.file.Close } }

/-- The branch of `Received` for the verb `HTTP_GET`. -/
def Received.GET (w : ServerWorld) (s : ServerTransferType) (element : Request) :
    ServerTransferType :=
  let s := s.assign w (s._pathPrefix ++ element.Path)
  if s._fileBody.file.Exists = true then
    let s := s.call (ServerCall.Authorize element)
    let message := w.Authorize element
    if message = "" then
      let s := s._CalculateHash
      { s with _response := { s._response with Body := some Object._fileBody } }
    else
      { s with _response := { s._response with
          ErrorCode := STATUS_UNAUTHORIZED
          Message := message } }
  else
    { s with _response := { s._response with
        ErrorCode := STATUS_NOT_FOUND
        Message := "File: " ++ element.Path ++ " was not found server side." } }

/-- The branch of `Received` for every other verb. -/
def Received.other (s : ServerTransferType) : ServerTransferType :=
  { s with _response := { s._response with
      ErrorCode := STATUS_BAD_REQUEST
      Message := "Unknown command received." } }

/-- The method `Received(element)` of the server: the branch of the verb, then
`BaseClass::Submit(_response)`. -/
def Received (w : ServerWorld) (s : ServerTransferType) (element : Request) :
    ServerTransferType :=
  let s :=
    if element.Verb = HTTP_PUT then Received.PUT w s element
    else if element.Verb = HTTP_GET then Received.GET w s element
    else Received.other s
  s.call (ServerCall.Submit s._response)

/-- The method `Send(response)` of the server. -/
def Send (s : ServerTransferType) (_response : Response) : ServerTransferType :=
  s.call (ServerCall.Close 0)

/-- The method `StateChange()` of the server, which is empty. -/
def StateChange (s : ServerTransferType) : ServerTransferType := s

end ServerTransferType

/-- Whether a traced call of the server is `Submit`. -/
def isSubmit : ServerCall → Bool
  | ServerCall.Submit _ => true
  | _ => false

/-- Whether a traced call of the server is an operation on the file-body. -/
def isFileCall : ServerCall → Bool
  | ServerCall.Assign _ => true
  | ServerCall.Create => true
  | ServerCall.Destroy => true
  | ServerCall.FileClose => true
  | _ => false

/-- Whether a traced call of the server is the `Authorize` hook. -/
def isAuthorize : ServerCall → Bool
  | ServerCall.Authorize _ => true
  | _ => false

/-! ## Sample inputs -/

/-- A readable, writable file of 100 bytes with the cursor at its start. -/
def sampleFile : File :=
  { IsOpen := true, IsReadOnly := false, Size := 100, stored := 100,
    byteAt := fun i => i % 256, Position := 0 }

/-- A hasher of kind 1 whose digest is the list of fed bytes itself. -/
def sampleHash : HashType := { kind := 1, algorithm := fun bytes => bytes, fed := [] }

/-- A URL of the form `http://h/p`. -/
def sampleURL : URL := { IsValid := true, Path := "p", Host := "h" }

/-- A URL that fails validation. -/
def invalidURL : URL := { IsValid := false, Path := "", Host := "" }

/-- A link that is open. -/
def linkOpen : LinkState := { IsOpen := true, IsClosed := false, IsSuspended := false }

/-- A link that is closed. -/
def linkClosed : LinkState := { IsOpen := false, IsClosed := true, IsSuspended := false }

/-- A link that is suspended. -/
def linkSuspended : LinkState := { IsOpen := false, IsClosed := false, IsSuspended := true }

/-- Collaborators with an open link and a `Setup` hook that accepts every URL. -/
def worldOpen : World := { Setup := fun _ => true, link := linkOpen, Open := fun _ => ERROR_NONE }

/-- Collaborators with a closed link that opens without error. -/
def worldClosed : World :=
  { Setup := fun _ => true, link := linkClosed, Open := fun _ => ERROR_NONE }

/-- Collaborators with a closed link whose `Open` reports a failure code. -/
def worldOpenFails : World :=
  { Setup := fun _ => true, link := linkClosed, Open := fun _ => ERROR_OTHER 6 }

/-- Collaborators whose `Setup` hook rejects every URL. -/
def worldRejects : World :=
  { Setup := fun _ => false, link := linkClosed, Open := fun _ => ERROR_NONE }

/-- The engine as constructed: idle, nothing cached, nothing traced; `FILEBODY` has the
hash capability. -/
def idleEngine : ClientTransferType :=
  { _state := TRANSFER_IDLE
    _request := { Verb := HTTP_UNKNOWN, Path := "", Host := "", Body := none,
                  ContentSignature := none }
    _fileBody := { file := sampleFile, Hash := some sampleHash }
    _channel := { _request := none, _response := none }
    trace := [] }

/-- An engine with an upload in progress. -/
def uploadingEngine : ClientTransferType := { idleEngine with _state := TRANSFER_UPLOAD }

/-- An engine with a download in progress. -/
def downloadingEngine : ClientTransferType := { idleEngine with _state := TRANSFER_DOWNLOAD }

/-- A response with status 200 and no content signature. -/
def responseOK : Response :=
  { ErrorCode := 200, ContentLength := none, ContentSignature := none, Body := none }

/-- A response with status 200 that advertises a content length of 10 bytes. -/
def responseLength10 : Response :=
  { ErrorCode := 200, ContentLength := some 10, ContentSignature := none, Body := none }

/-- A download in progress into which 5 bytes have been written: the file holds 5 bytes
and the cursor is at offset 5. -/
def shortDownload : ClientTransferType :=
  { downloadingEngine with
    _fileBody := { file := { sampleFile with Size := 0, stored := 5, Position := 5 },
                   Hash := some sampleHash } }

/-- A file of 4 GiB with the cursor at its end, offset 2^32. -/
def bigFile : File :=
  { IsOpen := true, IsReadOnly := false, Size := 4294967296, stored := 4294967296,
    byteAt := fun _ => 0, Position := 4294967296 }

/-- The idle engine whose file-body is the 4 GiB file. -/
def bigEngine : ClientTransferType :=
  { idleEngine with _fileBody := { file := bigFile, Hash := some sampleHash } }

/-- A file of 100 bytes with the cursor at offset 10. -/
def seekedFile : File := { sampleFile with Position := 10 }

/-- The idle engine whose file-body has its cursor at offset 10. -/
def seekedEngine : ClientTransferType :=
  { idleEngine with _fileBody := { file := seekedFile, Hash := some sampleHash } }

/-- A file system that holds the 100-byte file under `/tmp/a.bin` and nothing else. -/
def sampleLookup (path : String) : File :=
  if path = "/tmp/a.bin" then { sampleFile with IsOpen := false }
  else { sampleFile with IsOpen := false, Exists := false, Size := 0, stored := 0 }

/-- Collaborators of the server whose `Authorize` hook permits every request. -/
def serverWorld : ServerWorld :=
  { Authorize := fun _ => "", lookup := sampleLookup, Create := fun _ => true }

/-- Collaborators of the server whose `Authorize` hook rejects every request. -/
def serverWorldDenies : ServerWorld :=
  { Authorize := fun _ => "denied", lookup := sampleLookup, Create := fun _ => true }

/-- A server engine bound to `/tmp/`, with its response as constructed (status 200, no
message, no body) and a file-body with the hash capability that is not open. -/
def sampleServer : ServerTransferType :=
  { _pathPrefix := "/tmp/"
    _fileBody := { file := { sampleFile with IsOpen := false }, Hash := some sampleHash }
    _response := { ErrorCode := 200, ContentLength := none, ContentSignature := none,
                   Body := none }
    trace := [] }

/-- A server engine whose file-body is open, as after a `LinkBody` that created the
file. -/
def receivingServer : ServerTransferType :=
  { sampleServer with _fileBody := { file := sampleFile, Hash := some sampleHash } }

/-- The request `PUT a.bin` without a content signature. -/
def putRequest : Request :=
  { Verb := HTTP_PUT, Path := "a.bin", Host := "h", Body := none, ContentSignature := none }

/-- The request `PUT a.bin` with a content signature that does not match. -/
def putRequestSigned : Request :=
  { Verb := HTTP_PUT, Path := "a.bin", Host := "h", Body := none,
    ContentSignature := some ⟨1, [7]⟩ }

/-- The request `GET a.bin`, a file the file system holds. -/
def getRequest : Request :=
  { Verb := HTTP_GET, Path := "a.bin", Host := "h", Body := none, ContentSignature := none }

/-- The request `GET missing`, a file the file system does not hold. -/
def getMissing : Request :=
  { Verb := HTTP_GET, Path := "missing", Host := "h", Body := none, ContentSignature := none }

/-- The request `DELETE a.bin`. -/
def deleteRequest : Request :=
  { Verb := HTTP_DELETE, Path := "a.bin", Host := "h", Body := none, ContentSignature := none }

/-- The server after it has answered `GET missing` with 404. -/
def answeredServer : ServerTransferType := sampleServer.Received serverWorld getMissing

/-- The engine after an upload over an open link has completed: accepted Upload,
LinkBody, Received, StateChange with the link closed. -/
def afterUpload : ClientTransferType :=
  deliverAll (idleEngine.Upload worldOpen sampleURL sampleFile).2
    [Notification.LinkBody responseOK, Notification.Received responseOK,
     Notification.StateChange linkClosed]

/-- The engine after an upload that had to open the link has completed: accepted Upload
with the link closed, StateChange with the link open, Send, LinkBody, Received,
StateChange with the link closed. -/
def afterOpenedUpload : ClientTransferType :=
  deliverAll (idleEngine.Upload worldClosed sampleURL sampleFile).2
    [Notification.StateChange linkOpen, Notification.Send (some Object._request),
     Notification.LinkBody responseOK, Notification.Received responseOK,
     Notification.StateChange linkClosed]

/-- A download in progress whose cursor, at offset 7, is beyond the 5 bytes the file
holds. -/
def overrunDownload : ClientTransferType :=
  { downloadingEngine with
    _fileBody := { file := { sampleFile with Size := 0, stored := 5, Position := 7 },
                   Hash := some sampleHash } }

/-- A server engine whose file-body is the 100-byte file with the cursor at offset 10. -/
def seekedServer : ServerTransferType :=
  { sampleServer with _fileBody := { file := seekedFile, Hash := some sampleHash } }

namespace ClientTransferType

theorem call_state (s : ClientTransferType) (c : Call) : (s.call c)._state = s._state := rfl

theorem CalculateHash_state (s : ClientTransferType) : s._CalculateHash._state = s._state := by
  unfold _CalculateHash
  cases s._fileBody.Hash <;> rfl

theorem CalculateHash_trace (s : ClientTransferType) : s._CalculateHash.trace = s.trace := by
  unfold _CalculateHash
  cases s._fileBody.Hash <;> rfl

theorem CalculateHash_channel (s : ClientTransferType) :
    s._CalculateHash._channel = s._channel := by
  unfold _CalculateHash
  cases s._fileBody.Hash <;> rfl

theorem StartTransfer_state (w : World) (s : ClientTransferType) (request : ProxyType) :
    (Channel.StartTransfer w s request).2._state = s._state := by
  unfold Channel.StartTransfer
  split <;> rfl

theorem StartTransfer_result (w : World) (s : ClientTransferType) (request : ProxyType) :
    (Channel.StartTransfer w s request).1 = if w.link.IsOpen = true then ERROR_NONE else w.Open 0 := by
  unfold Channel.StartTransfer
  split <;> rfl

end ClientTransferType

/-! ## Upload and Download: return values -/

open ClientTransferType

/-- C1: on an engine whose state is not Idle, Upload and Download return InProgress and
give back the engine unchanged: state, request, file-body, channel and trace are the
ones before the call, so Setup is not called and nothing reaches the channel. -/
theorem busy_returns_inprogress (w : World) (s : ClientTransferType) (url : URL) (file : File)
    (h : s._state ≠ TRANSFER_IDLE) :
    s.Upload w url file = (ERROR_INPROGRESS, s) ∧ s.Download w url file = (ERROR_INPROGRESS, s) := by
  constructor
  · unfold Upload; rw [if_neg h]
  · unfold Download; rw [if_neg h]

/-- Witness of C1 on an engine with an upload in progress. -/
theorem busy_returns_inprogress_witness :
    uploadingEngine._state ≠ TRANSFER_IDLE ∧
    (uploadingEngine.Upload worldOpen sampleURL sampleFile = (ERROR_INPROGRESS, uploadingEngine) ∧
     uploadingEngine.Download worldOpen sampleURL sampleFile = (ERROR_INPROGRESS, uploadingEngine)) :=
  ⟨by decide, busy_returns_inprogress worldOpen uploadingEngine sampleURL sampleFile (by decide)⟩

/-- C2: on an idle engine an invalid URL makes Upload and Download return IncorrectUrl
with the engine unchanged (so Setup is not called); a valid URL that Setup rejects makes
them return CouldNotSetAddress, and then the only change is the traced call of Setup:
the state is still Idle, the request, the file-body and the channel are the ones before
the call, and neither Submit nor Open is called. -/
theorem idle_rejections (w : World) (s : ClientTransferType) (url : URL) (file : File)
    (h : s._state = TRANSFER_IDLE) :
    (url.IsValid = false →
      s.Upload w url file = (ERROR_INCORRECT_URL, s) ∧
      s.Download w url file = (ERROR_INCORRECT_URL, s)) ∧
    (url.IsValid = true → w.Setup url = false →
      s.Upload w url file = (ERROR_COULD_NOT_SET_ADDRESS, s.call (Call.Setup url)) ∧
      s.Download w url file = (ERROR_COULD_NOT_SET_ADDRESS, s.call (Call.Setup url)) ∧
      (s.call (Call.Setup url))._state = TRANSFER_IDLE ∧
      (s.call (Call.Setup url))._request = s._request ∧
      (s.call (Call.Setup url))._fileBody = s._fileBody ∧
      (s.call (Call.Setup url))._channel = s._channel ∧
      (s.call (Call.Setup url)).trace = s.trace ++ [(Call.Setup url, TRANSFER_IDLE)]) := by
  refine ⟨fun hv => ⟨?_, ?_⟩, fun hv hs => ⟨?_, ?_, h, rfl, rfl, rfl, ?_⟩⟩
  · unfold Upload; simp [h, hv]
  · unfold Download; simp [h, hv]
  · unfold Upload; simp [h, hv, hs]
  · unfold Download; simp [h, hv, hs]
  · simp [call, h]

/-- Witness of C2: the idle engine with an invalid URL, and with a URL that Setup
rejects. -/
theorem idle_rejections_witness :
    (idleEngine.Upload worldOpen invalidURL sampleFile = (ERROR_INCORRECT_URL, idleEngine) ∧
     idleEngine.Download worldOpen invalidURL sampleFile = (ERROR_INCORRECT_URL, idleEngine)) ∧
    (idleEngine.Upload worldRejects sampleURL sampleFile).1 = ERROR_COULD_NOT_SET_ADDRESS ∧
    (idleEngine.Download worldRejects sampleURL sampleFile).1 = ERROR_COULD_NOT_SET_ADDRESS :=
  ⟨(idle_rejections worldOpen idleEngine invalidURL sampleFile rfl).1 rfl,
   by rw [((idle_rejections worldRejects idleEngine sampleURL sampleFile rfl).2 rfl rfl).1],
   by rw [((idle_rejections worldRejects idleEngine sampleURL sampleFile rfl).2 rfl rfl).2.1]⟩

/-- C3, the claim as written fails: with the link closed and an Open that reports a
failure code, an accepted Upload (idle engine, valid URL, Setup accepts) returns that
code, which is neither None nor any of InProgress, IncorrectUrl, CouldNotSetAddress. -/
theorem accepted_upload_not_none :
    idleEngine._state = TRANSFER_IDLE ∧ sampleURL.IsValid = true ∧
    worldOpenFails.Setup sampleURL = true ∧
    (idleEngine.Upload worldOpenFails sampleURL sampleFile).1 = ERROR_OTHER 6 ∧
    (idleEngine.Upload worldOpenFails sampleURL sampleFile).1 ∉
      [ERROR_INPROGRESS, ERROR_INCORRECT_URL, ERROR_COULD_NOT_SET_ADDRESS, ERROR_NONE] ∧
    (idleEngine.Download worldOpenFails sampleURL sampleFile).1 ∉
      [ERROR_INPROGRESS, ERROR_INCORRECT_URL, ERROR_COULD_NOT_SET_ADDRESS, ERROR_NONE] := by
  refine ⟨rfl, rfl, rfl, ?_, ?_, ?_⟩
  · simp [Upload, idleEngine, worldOpenFails, sampleURL, linkClosed, Channel.StartTransfer]
  · simp [Upload, idleEngine, worldOpenFails, sampleURL, linkClosed, Channel.StartTransfer]
  · simp [Download, idleEngine, worldOpenFails, sampleURL, linkClosed, Channel.StartTransfer]

/-- C3 as amended: on an idle engine with a valid URL that Setup accepts, Upload leaves
the state at Upload and Download at Download; the value returned is None when the link
is already open and the result of the channel's Open(0) when it is not.  For every
engine, the value returned by Upload and Download is one of InProgress, IncorrectUrl,
CouldNotSetAddress, None, or the result of Open(0). -/
theorem accepted_transfer (w : World) (s : ClientTransferType) (url : URL) (file : File) :
    (s._state = TRANSFER_IDLE → url.IsValid = true → w.Setup url = true →
      (s.Upload w url file).2._state = TRANSFER_UPLOAD ∧
      (s.Upload w url file).1 = (if w.link.IsOpen = true then ERROR_NONE else w.Open 0) ∧
      (s.Download w url file).2._state = TRANSFER_DOWNLOAD ∧
      (s.Download w url file).1 = (if w.link.IsOpen = true then ERROR_NONE else w.Open 0)) ∧
    (s.Upload w url file).1 ∈
      [ERROR_INPROGRESS, ERROR_INCORRECT_URL, ERROR_COULD_NOT_SET_ADDRESS, ERROR_NONE, w.Open 0] ∧
    (s.Download w url file).1 ∈
      [ERROR_INPROGRESS, ERROR_INCORRECT_URL, ERROR_COULD_NOT_SET_ADDRESS, ERROR_NONE, w.Open 0] := by
  refine ⟨fun h hv hs => ⟨?_, ?_, ?_, ?_⟩, ?_, ?_⟩
  · unfold Upload
    simp only [h, hv, hs, if_true]
    rw [StartTransfer_state, CalculateHash_state]
  · unfold Upload
    simp only [h, hv, hs, if_true]
    rw [StartTransfer_result]
  · unfold Download
    simp only [h, hv, hs, if_true]
    rw [StartTransfer_state]
  · unfold Download
    simp only [h, hv, hs, if_true]
    rw [StartTransfer_result]
  · unfold Upload
    split
    · split
      · split
        · rw [StartTransfer_result]
          split <;> simp
        · simp
      · simp
    · simp
  · unfold Download
    split
    · split
      · split
        · rw [StartTransfer_result]
          split <;> simp
        · simp
      · simp
    · simp

/-- Witness of C3 as amended: the idle engine, once with the link open and once with a
link whose Open fails. -/
theorem accepted_transfer_witness :
    ((idleEngine.Upload worldOpen sampleURL sampleFile).2._state = TRANSFER_UPLOAD ∧
     (idleEngine.Upload worldOpen sampleURL sampleFile).1 = ERROR_NONE ∧
     (idleEngine.Download worldOpen sampleURL sampleFile).2._state = TRANSFER_DOWNLOAD ∧
     (idleEngine.Download worldOpen sampleURL sampleFile).1 = ERROR_NONE) ∧
    (idleEngine.Upload worldOpenFails sampleURL sampleFile).2._state = TRANSFER_UPLOAD :=
  ⟨(accepted_transfer worldOpen idleEngine sampleURL sampleFile).1 rfl rfl rfl,
   ((accepted_transfer worldOpenFails idleEngine sampleURL sampleFile).1 rfl rfl rfl).1⟩

/-! ## Completion -/

namespace ClientTransferType

theorem EndTransfer_trace (s : ClientTransferType) (response : Option Response) :
    (s.EndTransfer response).1.trace = s.trace ++
      [(Call.Transfered
          (match response with
           | none => ERROR_UNAVAILABLE
           | some r => EndTransfer.errorCode
               { s with _fileBody := { s._fileBody with file := s._fileBody.file.LoadFileInfo } } r)
          Object._fileBody, TRANSFER_IDLE)] := by
  cases response <;> rfl

theorem EndTransfer_state (s : ClientTransferType) (response : Option Response) :
    (s.EndTransfer response).1._state = TRANSFER_IDLE := by
  cases response <;> rfl

theorem EndTransfer_response (s : ClientTransferType) (response : Option Response) :
    (s.EndTransfer response).2 = none := by
  cases response <;> rfl

theorem EndTransfer_channel (s : ClientTransferType) (response : Option Response) :
    (s.EndTransfer response).1._channel = s._channel := by
  cases response <;> rfl

theorem errorCode_table (s : ClientTransferType) (r : Response) :
    EndTransfer.errorCode
      { s with _fileBody := { s._fileBody with file := s._fileBody.file.LoadFileInfo } } r =
    statusTable s._state (some r) s.Transferred s._fileBody.file.stored s._ValidateHash := by
  simp only [EndTransfer.errorCode, statusTable, STATUS_NOT_FOUND, STATUS_OK, STATUS_UNAUTHORIZED,
    Transferred, FileSize, File.LoadFileInfo, _ValidateHash]
  by_cases h404 : r.ErrorCode = 404
  · simp [h404]
  · by_cases h401 : r.ErrorCode = 401
    · simp [h401]
    · by_cases h200 : r.ErrorCode = 200 <;> by_cases hd : s._state = TRANSFER_DOWNLOAD <;>
        simp [h404, h401, h200, hd]

theorem EndTransfer_trace_table (s : ClientTransferType) (response : Option Response) :
    (s.EndTransfer response).1.trace = s.trace ++
      [(Call.Transfered
          (statusTable s._state response s.Transferred s._fileBody.file.stored s._ValidateHash)
          Object._fileBody, TRANSFER_IDLE)] := by
  rw [EndTransfer_trace]
  cases response with
  | none => rfl
  | some r => simp only [errorCode_table]

end ClientTransferType

/-- C4: the status EndTransfer passes to Transfered is the first matching row of the
completion table, for every state, response, file-body cursor position and file size
(the size the file system reports, which EndTransfer reloads); an Upload never yields
WriteError, and yields IncorrectHash only on status 401. -/
theorem EndTransfer_status (s : ClientTransferType) (response : Option Response) :
    (s.EndTransfer response).1.trace = s.trace ++
      [(Call.Transfered
          (statusTable s._state response s._fileBody.file.Position s._fileBody.file.stored
            s._ValidateHash)
          Object._fileBody, TRANSFER_IDLE)] ∧
    (s._state = TRANSFER_UPLOAD →
      deliveredStatus (s.EndTransfer response).1.trace ≠ some ERROR_WRITE_ERROR ∧
      (deliveredStatus (s.EndTransfer response).1.trace = some ERROR_INCORRECT_HASH →
        ∃ r, response = some r ∧ r.ErrorCode = 401)) := by
  have ht : (s.EndTransfer response).1.trace = s.trace ++
      [(Call.Transfered
          (statusTable s._state response s._fileBody.file.Position s._fileBody.file.stored
            s._ValidateHash)
          Object._fileBody, TRANSFER_IDLE)] := EndTransfer_trace_table s response
  refine ⟨ht, fun hu => ?_⟩
  rw [ht]
  simp only [deliveredStatus, List.getLast?_concat]
  cases response with
  | none => simp [statusTable]
  | some r =>
    simp only [statusTable, hu]
    by_cases h404 : r.ErrorCode = 404
    · simp [h404]
    · by_cases h401 : r.ErrorCode = 401
      · simp [h401]
      · simp [h404, h401]

/-- Witness of C4: an upload that ends with a 401 response, and a download that ends
with a 200 response while its cursor, at offset 7, is beyond the 5 bytes of the file. -/
theorem EndTransfer_status_witness :
    deliveredStatus (uploadingEngine.EndTransfer
        (some { ErrorCode := 401, ContentLength := none, ContentSignature := none, Body := none })).1.trace
      ≠ some ERROR_WRITE_ERROR ∧
    (overrunDownload.EndTransfer (some responseOK)).1.trace = overrunDownload.trace ++
      [(Call.Transfered ERROR_WRITE_ERROR Object._fileBody, TRANSFER_IDLE)] :=
  ⟨((EndTransfer_status uploadingEngine
      (some { ErrorCode := 401, ContentLength := none, ContentSignature := none, Body := none })).2
    rfl).1,
   (EndTransfer_status overrunDownload (some responseOK)).1⟩

/-- C5: for every engine state and every response, EndTransfer leaves the state Idle and
adds exactly one call to the trace, the Transfered upcall, made when the state is already
Idle, with the classified status and the engine's own file-body, which is the object
LinkBody attaches to a response. -/
theorem EndTransfer_delivers_once (s : ClientTransferType) (response : Option Response) :
    (s.EndTransfer response).1._state = TRANSFER_IDLE ∧
    (s.EndTransfer response).1.trace = s.trace ++
      [(Call.Transfered
          (statusTable s._state response s.Transferred s._fileBody.file.stored s._ValidateHash)
          Object._fileBody, TRANSFER_IDLE)] ∧
    transferedCount (s.EndTransfer response).1.trace = transferedCount s.trace + 1 ∧
    ∀ element : Response, (s.LinkBody element).2.Body = some Object._fileBody := by
  have ht := EndTransfer_trace_table s response
  refine ⟨EndTransfer_state s response, ht, ?_, fun element => rfl⟩
  rw [ht]
  simp [transferedCount, isTransfered]

/-! ## Notifications and the Transfered upcall -/

namespace ClientTransferType

theorem transferedCount_call (s : ClientTransferType) (c : Call) :
    transferedCount (s.call c).trace =
      transferedCount s.trace + (if isTransfered (c, s._state) = true then 1 else 0) := by
  simp [call, transferedCount, List.countP_append, List.countP_cons]

theorem StateChange_open (link : LinkState) (s : ClientTransferType) (h : link.IsOpen = true) :
    Channel.StateChange link s = s.call (Call.Submit (s.deref s._channel._request)) := by
  unfold Channel.StateChange
  rw [if_pos h]

theorem StateChange_ends (link : LinkState) (s : ClientTransferType) (h : link.IsOpen = false)
    (hc : s._channel._response.isSome = true ∨ link.IsClosed = true ∨ link.IsSuspended = true) :
    Channel.StateChange link s =
      { (s.EndTransfer s._channel._response).1 with
        _channel := { (s.EndTransfer s._channel._response).1._channel with
                      _response := (s.EndTransfer s._channel._response).2 } } := by
  unfold Channel.StateChange
  rw [if_neg (by simp [h]), if_pos hc]

theorem StateChange_ignored (link : LinkState) (s : ClientTransferType) (h : link.IsOpen = false)
    (hc : ¬ (s._channel._response.isSome = true ∨ link.IsClosed = true ∨ link.IsSuspended = true)) :
    Channel.StateChange link s = s := by
  unfold Channel.StateChange
  rw [if_neg (by simp [h]), if_neg hc]

theorem transferedCount_EndTransfer (s : ClientTransferType) (response : Option Response) :
    transferedCount (s.EndTransfer response).1.trace = transferedCount s.trace + 1 := by
  rw [EndTransfer_trace]
  simp [transferedCount, isTransfered]

theorem transferedCount_StateChange_ends (link : LinkState) (s : ClientTransferType)
    (h : link.IsOpen = false)
    (hc : s._channel._response.isSome = true ∨ link.IsClosed = true ∨ link.IsSuspended = true) :
    transferedCount (Channel.StateChange link s).trace = transferedCount s.trace + 1 := by
  rw [StateChange_ends link s h hc]
  exact transferedCount_EndTransfer s s._channel._response

end ClientTransferType

theorem transferedCount_deliver_other (s : ClientTransferType) (n : Notification)
    (h : isClosing n = false) :
    transferedCount (deliver s n).trace = transferedCount s.trace := by
  cases n with
  | StateChange link =>
    have ho : link.IsOpen = true := by simpa [isClosing] using h
    simp only [deliver]
    rw [StateChange_open link s ho, transferedCount_call]
    simp [isTransfered]
  | LinkBody element =>
    simp only [deliver, Channel.LinkBody, ClientTransferType.LinkBody]
    split <;> rfl
  | Received response =>
    simp only [deliver, Channel.Received]
    rw [transferedCount_call]
    simp [isTransfered]
  | Send request => rfl

theorem transferedCount_deliver_le (s : ClientTransferType) (n : Notification) :
    transferedCount (deliver s n).trace ≤
      transferedCount s.trace + (if isClosing n = true then 1 else 0) := by
  by_cases h : isClosing n = true
  · rw [if_pos h]
    cases n with
    | StateChange link =>
      have ho : link.IsOpen = false := by simpa [isClosing] using h
      simp only [deliver]
      by_cases hc : s._channel._response.isSome = true ∨ link.IsClosed = true ∨
          link.IsSuspended = true
      · rw [transferedCount_StateChange_ends link s ho hc]
      · rw [StateChange_ignored link s ho hc]
        exact Nat.le_succ _
    | LinkBody element => simp [isClosing] at h
    | Received response => simp [isClosing] at h
    | Send request => simp [isClosing] at h
  · rw [if_neg h, transferedCount_deliver_other s n (by simpa using h)]
    exact Nat.le_refl _

theorem transferedCount_deliverAll_le (ns : List Notification) :
    ∀ s : ClientTransferType,
      transferedCount (deliverAll s ns).trace ≤ transferedCount s.trace + ns.countP isClosing := by
  induction ns with
  | nil => intro s; simp [deliverAll]
  | cons n rest ih =>
    intro s
    have h1 := transferedCount_deliver_le s n
    have h2 := ih (deliver s n)
    simp only [deliverAll, List.foldl_cons] at h2 ⊢
    rw [List.countP_cons]
    omega

/-- C6, the claim as written fails: after an accepted Upload the notifications LinkBody,
Received, StateChange (suspended), StateChange (closed) invoke Transfered twice; and a
StateChange with the link closed that reaches an idle engine invokes Transfered. -/
theorem transfered_twice :
    (idleEngine.Upload worldOpen sampleURL sampleFile).1 = ERROR_NONE ∧
    transferedCount (idleEngine.Upload worldOpen sampleURL sampleFile).2.trace = 0 ∧
    transferedCount (deliverAll (idleEngine.Upload worldOpen sampleURL sampleFile).2
      [Notification.LinkBody responseOK, Notification.Received responseOK,
       Notification.StateChange linkSuspended, Notification.StateChange linkClosed]).trace = 2 ∧
    idleEngine._state = TRANSFER_IDLE ∧
    transferedCount (deliver idleEngine (Notification.StateChange linkClosed)).trace =
      transferedCount idleEngine.trace + 1 := by
  refine ⟨?_, ?_, ?_, rfl, ?_⟩ <;> decide

/-- C6 as amended: a notification invokes Transfered at most once.  LinkBody, Received,
Send and a StateChange with the link open never invoke it; a StateChange with the link
not open invokes it exactly once when a response is stored or the link is closed or
suspended, whatever the engine state (Idle included), and otherwise changes nothing.
Hence the Transfered upcalls that follow a call are at most as many as the StateChange
notifications with the link not open that follow it. -/
theorem transfered_per_notification (s : ClientTransferType) (ns : List Notification) :
    (∀ n, isClosing n = false →
      transferedCount (deliver s n).trace = transferedCount s.trace) ∧
    (∀ link : LinkState, link.IsOpen = false →
      (s._channel._response.isSome = true ∨ link.IsClosed = true ∨ link.IsSuspended = true) →
      transferedCount (deliver s (Notification.StateChange link)).trace =
        transferedCount s.trace + 1) ∧
    (∀ link : LinkState, link.IsOpen = false →
      ¬ (s._channel._response.isSome = true ∨ link.IsClosed = true ∨ link.IsSuspended = true) →
      deliver s (Notification.StateChange link) = s) ∧
    transferedCount (deliverAll s ns).trace ≤ transferedCount s.trace + ns.countP isClosing :=
  ⟨fun n h => transferedCount_deliver_other s n h,
   fun link h hc => transferedCount_StateChange_ends link s h hc,
   fun link h hc => StateChange_ignored link s h hc,
   transferedCount_deliverAll_le ns s⟩

/-- Witness of C6 as amended: Received on an engine that is uploading, and a StateChange
with the link closed on the idle engine. -/
theorem transfered_per_notification_witness :
    transferedCount (deliver uploadingEngine (Notification.Received responseOK)).trace =
      transferedCount uploadingEngine.trace ∧
    transferedCount (deliver idleEngine (Notification.StateChange linkClosed)).trace =
      transferedCount idleEngine.trace + 1 ∧
    deliver idleEngine (Notification.StateChange ⟨false, false, false⟩) = idleEngine :=
  ⟨(transfered_per_notification uploadingEngine []).1 (Notification.Received responseOK) rfl,
   (transfered_per_notification idleEngine []).2.1 linkClosed rfl (Or.inr (Or.inl rfl)),
   (transfered_per_notification idleEngine []).2.2.1 ⟨false, false, false⟩ rfl (by decide)⟩

/-! ## Close during a transfer -/

/-- C7, the claim as written fails: Close() on an engine with an accepted Upload, then a
StateChange with the link closed, delivers Transfered(Unavailable): the notification is
not ignored. -/
theorem transfered_after_close :
    (idleEngine.Upload worldClosed sampleURL sampleFile).2._state = TRANSFER_UPLOAD ∧
    transferedCount (idleEngine.Upload worldClosed sampleURL sampleFile).2.Close.trace = 0 ∧
    (deliver (idleEngine.Upload worldClosed sampleURL sampleFile).2.Close
        (Notification.StateChange linkClosed)).trace =
      (idleEngine.Upload worldClosed sampleURL sampleFile).2.Close.trace ++
        [(Call.Transfered ERROR_UNAVAILABLE Object._fileBody, TRANSFER_IDLE)] := by
  refine ⟨?_, ?_, ?_⟩ <;> decide

/-- C7 as amended: on an engine with an active transfer, Close() closes and flushes the
link, releases the cached request and the stored response, invokes no Transfered and
leaves the state as it is (the transfer stays active).  A StateChange that follows with
the link open invokes no Transfered; one that follows with the link not open and closed
or suspended is not ignored: it delivers Transfered(Unavailable, file-body) exactly once
and makes the state Idle. -/
theorem close_then_statechange (s : ClientTransferType) (link : LinkState)
    (h : s._state ≠ TRANSFER_IDLE) :
    s.Close._state = s._state ∧ s.Close._state ≠ TRANSFER_IDLE ∧
    s.Close._channel._request = none ∧ s.Close._channel._response = none ∧
    s.Close.trace = s.trace ++ [(Call.Close Core.infinite, s._state), (Call.Flush, s._state)] ∧
    (link.IsOpen = true →
      transferedCount (Channel.StateChange link s.Close).trace = transferedCount s.trace) ∧
    (link.IsOpen = false → (link.IsClosed = true ∨ link.IsSuspended = true) →
      (Channel.StateChange link s.Close)._state = TRANSFER_IDLE ∧
      (Channel.StateChange link s.Close).trace =
        s.Close.trace ++ [(Call.Transfered ERROR_UNAVAILABLE Object._fileBody, TRANSFER_IDLE)]) := by
  have hst : s.Close._state = s._state := by
    simp only [Close, Channel.Close]
    split <;> split <;> rfl
  have hrq : s.Close._channel._request = none := by
    simp only [Close, Channel.Close, call]
    cases h1 : s._channel._request <;> cases h2 : s._channel._response <;> simp [h1, h2]
  have hrs : s.Close._channel._response = none := by
    simp only [Close, Channel.Close, call]
    cases h1 : s._channel._request <;> cases h2 : s._channel._response <;> simp [h1, h2]
  have htr : s.Close.trace =
      s.trace ++ [(Call.Close Core.infinite, s._state), (Call.Flush, s._state)] := by
    simp only [Close, Channel.Close, call]
    cases h1 : s._channel._request <;> cases h2 : s._channel._response <;> simp [h1, h2]
  refine ⟨hst, hst ▸ h, hrq, hrs, htr, fun ho => ?_, fun ho hc => ?_⟩
  · rw [StateChange_open link s.Close ho, transferedCount_call, htr]
    simp [isTransfered, transferedCount, List.countP_append, List.countP_cons]
  · rw [StateChange_ends link s.Close ho (Or.inr hc)]
    refine ⟨EndTransfer_state s.Close s.Close._channel._response, ?_⟩
    show (s.Close.EndTransfer s.Close._channel._response).1.trace = _
    rw [EndTransfer_trace, hrs]

/-- Witness of C7 as amended: the uploading engine, closed, then told that the link is
closed. -/
theorem close_then_statechange_witness :
    (Channel.StateChange linkClosed uploadingEngine.Close)._state = TRANSFER_IDLE ∧
    (Channel.StateChange linkClosed uploadingEngine.Close).trace =
      uploadingEngine.Close.trace ++
        [(Call.Transfered ERROR_UNAVAILABLE Object._fileBody, TRANSFER_IDLE)] :=
  (close_then_statechange uploadingEngine linkClosed (by decide)).2.2.2.2.2.2 rfl (Or.inl rfl)

/-! ## Download completion and the content length -/

/-- C8, the claim as written fails: a Download whose response advertises 10 bytes and
into which 5 bytes were written completes with status None, with Transferred() = 5. -/
theorem short_download_succeeds :
    shortDownload._state = TRANSFER_DOWNLOAD ∧
    responseLength10.ContentLength = some 10 ∧
    deliveredStatus (shortDownload.EndTransfer (some responseLength10)).1.trace = some ERROR_NONE ∧
    (shortDownload.EndTransfer (some responseLength10)).1.Transferred = 5 := by
  refine ⟨rfl, rfl, ?_, rfl⟩
  decide

/-- C8 as amended: for every Download that EndTransfer completes on a response with
status 200, the status is WriteError exactly when the cursor position and the file size
are both 0 or the file size is smaller than the cursor position; when the status is None,
Transferred() is at most FileSize() and the file is not empty.  The Content-Length of the
response is not compared: the completion does not depend on it. -/
theorem download_completion (s : ClientTransferType) (r : Response)
    (h : s._state = TRANSFER_DOWNLOAD) (h200 : r.ErrorCode = 200) :
    (deliveredStatus (s.EndTransfer (some r)).1.trace = some ERROR_WRITE_ERROR ↔
      ((s.Transferred = 0 ∧ s._fileBody.file.stored = 0) ∨
        s._fileBody.file.stored < s.Transferred)) ∧
    (deliveredStatus (s.EndTransfer (some r)).1.trace = some ERROR_NONE →
      (s.EndTransfer (some r)).1.Transferred ≤ (s.EndTransfer (some r)).1.FileSize ∧
      0 < (s.EndTransfer (some r)).1.FileSize) ∧
    (s.EndTransfer (some r)).1.Transferred = s.Transferred ∧
    (s.EndTransfer (some r)).1.FileSize = s._fileBody.file.stored ∧
    (∀ length : Option Nat,
      (s.EndTransfer (some { r with ContentLength := length })).1.trace =
        (s.EndTransfer (some r)).1.trace) := by
  have ht := EndTransfer_trace_table s (some r)
  have hp : (s.EndTransfer (some r)).1.Transferred = s.Transferred := rfl
  have hz : (s.EndTransfer (some r)).1.FileSize = s._fileBody.file.stored := rfl
  refine ⟨?_, ?_, hp, hz, fun length => ?_⟩
  · rw [ht]
    simp only [deliveredStatus, List.getLast?_concat, statusTable, h, h200]
    by_cases hw : (s.Transferred = 0 ∧ s._fileBody.file.stored = 0) ∨
        s._fileBody.file.stored < s.Transferred
    · simp [hw]
    · by_cases hv : s._ValidateHash r.ContentSignature = false <;> simp [hw, hv]
  · rw [ht, hp, hz]
    simp only [deliveredStatus, List.getLast?_concat, statusTable, h, h200]
    by_cases hw : (s.Transferred = 0 ∧ s._fileBody.file.stored = 0) ∨
        s._fileBody.file.stored < s.Transferred
    · simp [hw]
    · intro _
      omega
  · rw [ht, EndTransfer_trace_table s (some { r with ContentLength := length })]
    rfl

/-- Witness of C8 as amended: the download of 5 bytes against an advertised length of
10. -/
theorem download_completion_witness :
    (shortDownload.EndTransfer (some responseLength10)).1.Transferred ≤
      (shortDownload.EndTransfer (some responseLength10)).1.FileSize ∧
    0 < (shortDownload.EndTransfer (some responseLength10)).1.FileSize :=
  (download_completion shortDownload responseLength10 rfl rfl).2.1 (by decide)

/-! ## Signature validation -/

/-- C9: with the hash capability, _ValidateHash returns true if and only if the
signature is absent or its (kind tag, digest) pair equals the (hash kind, hash result) of
the file-body; without it, _ValidateHash returns true for every signature.  So an absent
signature is accepted in both variants, and the hashing variant rejects a present
signature whose digest differs from the local hash. -/
theorem ValidateHash_iff (s : ClientTransferType) (signature : Option Signature) :
    (∀ hash, s._fileBody.Hash = some hash →
      (s._ValidateHash signature = true ↔
        signature = none ∨
        ∃ sig, signature = some sig ∧ (sig.kind, sig.digest) = (hash.kind, hash.Result))) ∧
    (s._fileBody.Hash = none → s._ValidateHash signature = true) ∧
    s._ValidateHash none = true ∧
    (∀ hash sig, s._fileBody.Hash = some hash → sig.digest ≠ hash.Result →
      s._ValidateHash (some sig) = false) := by
  refine ⟨fun hash hh => ?_, fun hh => ?_, ?_, fun hash sig hh hd => ?_⟩
  · cases signature with
    | none => simp [_ValidateHash, hh]
    | some sig => simp [_ValidateHash, hh, Signature.Equal]
  · simp [_ValidateHash, hh]
  · unfold _ValidateHash
    cases s._fileBody.Hash <;> rfl
  · simp [_ValidateHash, hh, Signature.Equal, hd]

/-- Witness of C9: the sample engine, whose hasher has kind 1 and an empty digest,
against a signature of the same kind with digest [7]. -/
theorem ValidateHash_iff_witness :
    (idleEngine._ValidateHash (some ⟨1, []⟩) = true ↔
      (some (⟨1, []⟩ : Signature) = none ∨
       ∃ sig : Signature, some (⟨1, []⟩ : Signature) = some sig ∧
         (sig.kind, sig.digest) = (sampleHash.kind, sampleHash.Result))) ∧
    idleEngine._ValidateHash (some ⟨1, [7]⟩) = false :=
  ⟨(ValidateHash_iff idleEngine (some ⟨1, []⟩)).1 sampleHash rfl,
   (ValidateHash_iff idleEngine none).2.2.2 sampleHash ⟨1, [7]⟩ rfl (by decide)⟩

/-! ## The cursor across _CalculateHash -/

namespace ClientTransferType

theorem _CalculateHash.loop_zero (fuel : Nat) (st : File × HashType) :
    _CalculateHash.loop fuel 0 st = st := by
  cases fuel <;> simp [_CalculateHash.loop]

theorem _CalculateHash.loop_fuel (f1 : Nat) :
    ∀ (f2 size : Nat) (st : File × HashType), size ≤ f1 → size ≤ f2 →
      _CalculateHash.loop f1 size st = _CalculateHash.loop f2 size st := by
  induction f1 with
  | zero =>
    intro f2 size st h1 _
    have : size = 0 := by omega
    subst this
    rw [_CalculateHash.loop_zero, _CalculateHash.loop_zero]
  | succ f1 ih =>
    intro f2 size st h1 h2
    cases f2 with
    | zero =>
      have : size = 0 := by omega
      subst this
      rw [_CalculateHash.loop_zero, _CalculateHash.loop_zero]
    | succ f2 =>
      by_cases hs : size > 0
      · simp only [_CalculateHash.loop, hs, if_true]
        apply ih <;> omega
      · simp only [_CalculateHash.loop, hs, if_false]

theorem CalculateHash_position (s : ClientTransferType) (hash : HashType)
    (hh : s._fileBody.Hash = some hash) :
    s._CalculateHash._fileBody.file.Position = s._fileBody.file.Position % 2 ^ 32 := by
  simp only [_CalculateHash, hh, File.SetPosition]

end ClientTransferType

/-- C10, the code at the failing input: a file-body with the hash capability on a file
of 2^32 bytes with the cursor at offset 2^32, which is not beyond the end of the file.
After _CalculateHash, and after an Upload of that file, the cursor is at offset 0. -/
theorem CalculateHash_cursor_truncated :
    bigFile.Position = 4294967296 ∧ bigFile.Position ≤ bigFile.Size ∧
    bigFile.Position < 2 ^ 64 ∧
    bigEngine._fileBody.file.Position = 4294967296 ∧
    bigEngine._CalculateHash._fileBody.file.Position = 0 ∧
    (idleEngine.Upload worldOpen sampleURL bigFile).1 = ERROR_NONE ∧
    (idleEngine.Upload worldOpen sampleURL bigFile).2._fileBody.file.Position = 0 := by
  refine ⟨rfl, ?_, ?_, rfl, ?_, ?_, ?_⟩ <;> decide

/-! ## The bytes _CalculateHash feeds to the hasher -/

theorem File.content_add (f : File) (start a b : Nat) :
    f.content start (a + b) = f.content start a ++ f.content (start + a) b := by
  simp only [File.content, List.range_add, List.map_append, List.map_map]
  congr 1
  apply List.map_congr_left
  intro i _
  simp [Nat.add_assoc]

theorem File.content_length (f : File) (start n : Nat) : (f.content start n).length = n := by
  simp [File.content]

namespace ClientTransferType

theorem _CalculateHash.loop_feeds (fuel : Nat) :
    ∀ (size : Nat) (file : File) (hash : HashType), size ≤ fuel →
      ∃ chunks : List (List Nat),
        _CalculateHash.loop fuel size (file, hash) =
          ({ file with Position := file.Position + size },
           { hash with fed := hash.fed ++ chunks }) ∧
        (∀ c ∈ chunks, c.length ≤ 64) ∧
        chunks.flatten = file.content file.Position size := by
  induction fuel with
  | zero =>
    intro size file hash h
    have : size = 0 := by omega
    subst this
    exact ⟨[], by simp [_CalculateHash.loop], by simp, by simp [File.content]⟩
  | succ fuel ih =>
    intro size file hash h
    by_cases hs : size > 0
    · obtain ⟨chunks, hl, hc, hf⟩ :=
        ih (size - min 64 size) { file with Position := file.Position + min 64 size }
          (hash.Input (file.content file.Position (min 64 size))) (by omega)
      refine ⟨file.content file.Position (min 64 size) :: chunks, ?_, ?_, ?_⟩
      · have ht : List.take (min 64 size) (file.content file.Position (min 64 size)) =
            file.content file.Position (min 64 size) :=
          List.take_of_length_le (by rw [File.content_length])
        simp only [_CalculateHash.loop, hs, if_true, File.Serialize]
        rw [show (List.range (min 64 size)).map (fun i => file.byteAt (file.Position + i)) =
          file.content file.Position (min 64 size) from rfl, ht, hl]
        simp only [HashType.Input, List.append_assoc, List.singleton_append]
        have hp : file.Position + min 64 size + (size - min 64 size) = file.Position + size := by
          omega
        rw [hp]
      · intro c hcm
        rcases List.mem_cons.1 hcm with rfl | hcm
        · rw [File.content_length]
          omega
        · exact hc c hcm
      · rw [List.flatten_cons, hf]
        have hsz : size = min 64 size + (size - min 64 size) := by omega
        conv_rhs => rw [hsz]
        rw [File.content_add]
        rfl
    · have : size = 0 := by omega
      subst this
      exact ⟨[], by simp [_CalculateHash.loop], by simp, by simp [File.content]⟩

end ClientTransferType

theorem ClientTransferType.CalculateHash_eq (s : ClientTransferType) (hash : HashType)
    (hh : s._fileBody.Hash = some hash) (pos size : Nat)
    (hpos : pos = s._fileBody.file.Position % 2 ^ 32)
    (hsize : size = (s._fileBody.file.Size % 2 ^ 64 + 2 ^ 64 - pos) % 2 ^ 64 % 2 ^ 32) :
    s._CalculateHash =
      { s with
        _fileBody :=
          { file := (_CalculateHash.loop size size (s._fileBody.file, hash.Reset)).1.SetPosition pos
            Hash := some (_CalculateHash.loop size size (s._fileBody.file, hash.Reset)).2 }
        _request := { s._request with
          ContentSignature := some (Signature.mk
            (_CalculateHash.loop size size (s._fileBody.file, hash.Reset)).2.kind
            (_CalculateHash.loop size size (s._fileBody.file, hash.Reset)).2.Result) } } := by
  subst hsize
  subst hpos
  simp only [_CalculateHash, hh]

/-- C11, the claim as written fails: on a file of 100 bytes with the cursor at offset 10
the hasher is fed bytes 10 to 99 only, which is not the whole content, and the signature
written into the request is not the digest of the whole content. -/
theorem hash_starts_at_cursor :
    seekedEngine._fileBody.file.Position = 10 ∧ seekedEngine._fileBody.file.Size = 100 ∧
    seekedEngine._CalculateHash._fileBody.Hash.map (fun h => h.fed.flatten) =
      some (seekedFile.content 10 90) ∧
    seekedFile.content 10 90 ≠ seekedFile.content 0 100 ∧
    seekedEngine._CalculateHash._request.ContentSignature ≠
      some ⟨sampleHash.kind, sampleHash.algorithm (seekedFile.content 0 100)⟩ := by
  refine ⟨rfl, rfl, ?_, ?_, ?_⟩ <;> decide

theorem ServerTransferType.serverHash_eq (t : ServerTransferType) (hash : HashType)
    (hh : t._fileBody.Hash = some hash) (pos size : Nat)
    (hpos : pos = t._fileBody.file.Position % 2 ^ 32)
    (hsize : size = (t._fileBody.file.Size % 2 ^ 64 + 2 ^ 64 - pos) % 2 ^ 64) :
    t._CalculateHash =
      { t with
        _fileBody :=
          { file := (_CalculateHash.loop size size (t._fileBody.file, hash.Reset)).1.SetPosition pos
            Hash := some (_CalculateHash.loop size size (t._fileBody.file, hash.Reset)).2 }
        _response := { t._response with
          ContentSignature := some (Signature.mk
            (_CalculateHash.loop size size (t._fileBody.file, hash.Reset)).2.kind
            (_CalculateHash.loop size size (t._fileBody.file, hash.Reset)).2.Result) } } := by
  subst hsize
  subst hpos
  simp only [ServerTransferType._CalculateHash, hh]

/-- C11 as amended: for a file-body with the hash capability on a file smaller than
2^32 bytes with the cursor within the file, both _CalculateHash routines, the one of the
client and the one of the server (total functions: the loop ends after at most as many
passes as there are bytes to read), reset the hasher first and then feed it chunks of at
most 64 bytes each whose concatenation is the file content from the cursor position to
the end of the file; the file is not rewound.  The signature written into the message,
the request for the client and the response for the server, is (hash kind, digest of
that content), and the file-body is left as it was. -/
theorem CalculateHash_feeds (s : ClientTransferType) (t : ServerTransferType)
    (hash : HashType) :
    (s._fileBody.Hash = some hash → s._fileBody.file.Position ≤ s._fileBody.file.Size →
      s._fileBody.file.Size < 2 ^ 32 →
      ∃ chunks : List (List Nat),
        s._CalculateHash._fileBody.Hash = some { hash with fed := chunks } ∧
        (∀ c ∈ chunks, c.length ≤ 64) ∧
        chunks.flatten = s._fileBody.file.content s._fileBody.file.Position
          (s._fileBody.file.Size - s._fileBody.file.Position) ∧
        s._CalculateHash._request.ContentSignature =
          some ⟨hash.kind, hash.algorithm (s._fileBody.file.content s._fileBody.file.Position
            (s._fileBody.file.Size - s._fileBody.file.Position))⟩ ∧
        s._CalculateHash._fileBody.file = s._fileBody.file) ∧
    (t._fileBody.Hash = some hash → t._fileBody.file.Position ≤ t._fileBody.file.Size →
      t._fileBody.file.Size < 2 ^ 32 →
      ∃ chunks : List (List Nat),
        t._CalculateHash._fileBody.Hash = some { hash with fed := chunks } ∧
        (∀ c ∈ chunks, c.length ≤ 64) ∧
        chunks.flatten = t._fileBody.file.content t._fileBody.file.Position
          (t._fileBody.file.Size - t._fileBody.file.Position) ∧
        t._CalculateHash._response.ContentSignature =
          some ⟨hash.kind, hash.algorithm (t._fileBody.file.content t._fileBody.file.Position
            (t._fileBody.file.Size - t._fileBody.file.Position))⟩ ∧
        t._CalculateHash._fileBody.file = t._fileBody.file) := by
  refine ⟨fun hh hp hs => ?_, fun hh hp hs => ?_⟩
  · obtain ⟨chunks, hl, hc, hf⟩ :=
      _CalculateHash.loop_feeds (s._fileBody.file.Size - s._fileBody.file.Position)
        (s._fileBody.file.Size - s._fileBody.file.Position) s._fileBody.file hash.Reset
        (Nat.le_refl _)
    rw [CalculateHash_eq s hash hh s._fileBody.file.Position
      (s._fileBody.file.Size - s._fileBody.file.Position) (by omega) (by omega), hl]
    refine ⟨chunks, rfl, hc, hf, ?_, rfl⟩
    simp only [HashType.Result, HashType.Reset, List.nil_append, hf]
  · obtain ⟨chunks, hl, hc, hf⟩ :=
      _CalculateHash.loop_feeds (t._fileBody.file.Size - t._fileBody.file.Position)
        (t._fileBody.file.Size - t._fileBody.file.Position) t._fileBody.file hash.Reset
        (Nat.le_refl _)
    rw [ServerTransferType.serverHash_eq t hash hh t._fileBody.file.Position
      (t._fileBody.file.Size - t._fileBody.file.Position) (by omega) (by omega), hl]
    refine ⟨chunks, rfl, hc, hf, ?_, rfl⟩
    simp only [HashType.Result, HashType.Reset, List.nil_append, hf]

/-- Witness of C11 as amended: the client engine and the server engine whose 100-byte
file has its cursor at offset 10. -/
theorem CalculateHash_feeds_witness :
    (∃ chunks : List (List Nat),
      seekedEngine._CalculateHash._fileBody.Hash = some { sampleHash with fed := chunks } ∧
      (∀ c ∈ chunks, c.length ≤ 64) ∧
      chunks.flatten = seekedEngine._fileBody.file.content seekedEngine._fileBody.file.Position
        (seekedEngine._fileBody.file.Size - seekedEngine._fileBody.file.Position) ∧
      seekedEngine._CalculateHash._request.ContentSignature =
        some ⟨sampleHash.kind, sampleHash.algorithm
          (seekedEngine._fileBody.file.content seekedEngine._fileBody.file.Position
            (seekedEngine._fileBody.file.Size - seekedEngine._fileBody.file.Position))⟩ ∧
      seekedEngine._CalculateHash._fileBody.file = seekedEngine._fileBody.file) ∧
    (∃ chunks : List (List Nat),
      seekedServer._CalculateHash._fileBody.Hash = some { sampleHash with fed := chunks } ∧
      (∀ c ∈ chunks, c.length ≤ 64) ∧
      chunks.flatten = seekedServer._fileBody.file.content seekedServer._fileBody.file.Position
        (seekedServer._fileBody.file.Size - seekedServer._fileBody.file.Position) ∧
      seekedServer._CalculateHash._response.ContentSignature =
        some ⟨sampleHash.kind, sampleHash.algorithm
          (seekedServer._fileBody.file.content seekedServer._fileBody.file.Position
            (seekedServer._fileBody.file.Size - seekedServer._fileBody.file.Position))⟩ ∧
      seekedServer._CalculateHash._fileBody.file = seekedServer._fileBody.file) :=
  ⟨(CalculateHash_feeds seekedEngine seekedServer sampleHash).1 rfl (by decide) (by decide),
   (CalculateHash_feeds seekedEngine seekedServer sampleHash).2 rfl (by decide) (by decide)⟩

/-! ## The server: Received and LinkBody -/

namespace ServerTransferType

theorem serverHash_trace (s : ServerTransferType) : s._CalculateHash.trace = s.trace := by
  unfold _CalculateHash
  cases s._fileBody.Hash <;> rfl

theorem CalculateHash_ErrorCode (s : ServerTransferType) :
    s._CalculateHash._response.ErrorCode = s._response.ErrorCode := by
  unfold _CalculateHash
  cases s._fileBody.Hash <;> rfl

theorem CalculateHash_Message (s : ServerTransferType) :
    s._CalculateHash._response.Message = s._response.Message := by
  unfold _CalculateHash
  cases s._fileBody.Hash <;> rfl

theorem Received_PUT (w : ServerWorld) (s : ServerTransferType) (element : Request)
    (h : element.Verb = HTTP_PUT) :
    s.Received w element =
      (Received.PUT w s element).call (ServerCall.Submit (Received.PUT w s element)._response) := by
  simp [Received, h]

theorem Received_GET (w : ServerWorld) (s : ServerTransferType) (element : Request)
    (h : element.Verb = HTTP_GET) :
    s.Received w element =
      (Received.GET w s element).call (ServerCall.Submit (Received.GET w s element)._response) := by
  simp [Received, h]

theorem Received_other (w : ServerWorld) (s : ServerTransferType) (element : Request)
    (hp : element.Verb ≠ HTTP_PUT) (hg : element.Verb ≠ HTTP_GET) :
    s.Received w element =
      (Received.other s).call (ServerCall.Submit (Received.other s)._response) := by
  simp [Received, hp, hg]

theorem PUT_not_open (w : ServerWorld) (s : ServerTransferType) (element : Request)
    (ho : s._fileBody.file.IsOpen = false) :
    Received.PUT w s element =
      { s with _response := { s._response with
          ErrorCode := STATUS_NOT_FOUND
          Message := "File: " ++ element.Path ++ " could not be stored server side." } } := by
  simp [Received.PUT, ho]

theorem PUT_bad_signature (w : ServerWorld) (s : ServerTransferType) (element : Request)
    (ho : s._fileBody.file.IsOpen = true)
    (hv : s._ValidateHash element.ContentSignature = false) :
    Received.PUT w s element =
      { s with
        _response := { s._response with
          ErrorCode := STATUS_UNAUTHORIZED
          Message := "File: " ++ element.Path ++ " has an incorrect signature." }
        _fileBody := { s._fileBody with file := s._fileBody.file.Destroy }
        trace := s.trace ++ [ServerCall.Destroy] } := by
  simp [Received.PUT, ho, hv, call, STATUS_UNAUTHORIZED, STATUS_OK]

theorem PUT_denied (w : ServerWorld) (s : ServerTransferType) (element : Request)
    (ho : s._fileBody.file.IsOpen = true)
    (hv : s._ValidateHash element.ContentSignature = true)
    (ha : w.Authorize element ≠ "") :
    Received.PUT w s element =
      { s with
        _response := { s._response with
          ErrorCode := STATUS_UNAUTHORIZED
          Message := w.Authorize element }
        _fileBody := { s._fileBody with file := s._fileBody.file.Destroy }
        trace := s.trace ++ [ServerCall.Authorize element, ServerCall.Destroy] } := by
  simp [Received.PUT, ho, hv, ha, call, STATUS_UNAUTHORIZED, STATUS_OK]

theorem PUT_stored (w : ServerWorld) (s : ServerTransferType) (element : Request)
    (ho : s._fileBody.file.IsOpen = true)
    (hv : s._ValidateHash element.ContentSignature = true)
    (ha : w.Authorize element = "") :
    Received.PUT w s element =
      { s with
        _response := { s._response with
          ErrorCode := STATUS_OK
          Message := "File: " ++ element.Path ++ " has been stored server side." }
        _fileBody := { s._fileBody with file := s._fileBody.file.Close }
        trace := s.trace ++ [ServerCall.Authorize element, ServerCall.FileClose] } := by
  simp [Received.PUT, ho, hv, ha, call, STATUS_OK]

end ServerTransferType

open ServerTransferType in
/-- C12: for a PUT request delivered to Received.  File-body not open: response 404 with
the "could not be stored" message, the only call is Submit (no Authorize, no Destroy, no
Close of the file) and the file-body is untouched.  Open and the signature fails
validation: response 401, the calls are Destroy then Submit (no Authorize).  Open, valid
signature, Authorize answers a non-empty message: response 401 with that message, the
calls are Authorize, Destroy, Submit.  Otherwise: response 200 with the "has been stored"
message, the calls are Authorize, Close of the file, Submit.  So the file is closed and
not destroyed exactly when the response is 200. -/
theorem put_received (w : ServerWorld) (s : ServerTransferType) (element : Request)
    (h : element.Verb = HTTP_PUT) :
    (s._fileBody.file.IsOpen = false →
      (s.Received w element)._response.ErrorCode = 404 ∧
      (s.Received w element)._response.Message =
        "File: " ++ element.Path ++ " could not be stored server side." ∧
      (s.Received w element).trace =
        s.trace ++ [ServerCall.Submit (s.Received w element)._response] ∧
      (s.Received w element)._fileBody = s._fileBody) ∧
    (s._fileBody.file.IsOpen = true → s._ValidateHash element.ContentSignature = false →
      (s.Received w element)._response.ErrorCode = 401 ∧
      (s.Received w element).trace =
        s.trace ++ [ServerCall.Destroy, ServerCall.Submit (s.Received w element)._response] ∧
      (s.Received w element)._fileBody.file = s._fileBody.file.Destroy) ∧
    (s._fileBody.file.IsOpen = true → s._ValidateHash element.ContentSignature = true →
      w.Authorize element ≠ "" →
      (s.Received w element)._response.ErrorCode = 401 ∧
      (s.Received w element)._response.Message = w.Authorize element ∧
      (s.Received w element).trace =
        s.trace ++ [ServerCall.Authorize element, ServerCall.Destroy,
                    ServerCall.Submit (s.Received w element)._response] ∧
      (s.Received w element)._fileBody.file = s._fileBody.file.Destroy) ∧
    (s._fileBody.file.IsOpen = true → s._ValidateHash element.ContentSignature = true →
      w.Authorize element = "" →
      (s.Received w element)._response.ErrorCode = 200 ∧
      (s.Received w element)._response.Message =
        "File: " ++ element.Path ++ " has been stored server side." ∧
      (s.Received w element).trace =
        s.trace ++ [ServerCall.Authorize element, ServerCall.FileClose,
                    ServerCall.Submit (s.Received w element)._response] ∧
      (s.Received w element)._fileBody.file = s._fileBody.file.Close) ∧
    (∃ t, (s.Received w element).trace = s.trace ++ t ∧
      ((ServerCall.FileClose ∈ t ∧ ServerCall.Destroy ∉ t) ↔
        (s.Received w element)._response.ErrorCode = 200)) := by
  rw [Received_PUT w s element h]
  refine ⟨fun ho => ?_, fun ho hv => ?_, fun ho hv ha => ?_, fun ho hv ha => ?_, ?_⟩
  · rw [PUT_not_open w s element ho]
    exact ⟨rfl, rfl, rfl, rfl⟩
  · rw [PUT_bad_signature w s element ho hv]
    refine ⟨rfl, ?_, rfl⟩
    simp [ServerTransferType.call]
  · rw [PUT_denied w s element ho hv ha]
    refine ⟨rfl, rfl, ?_, rfl⟩
    simp [ServerTransferType.call]
  · rw [PUT_stored w s element ho hv ha]
    refine ⟨rfl, rfl, ?_, rfl⟩
    simp [ServerTransferType.call]
  · by_cases ho : s._fileBody.file.IsOpen = true
    · by_cases hv : s._ValidateHash element.ContentSignature = true
      · by_cases ha : w.Authorize element = ""
        · refine ⟨[ServerCall.Authorize element, ServerCall.FileClose,
            ServerCall.Submit (Received.PUT w s element)._response], ?_, ?_⟩
          · rw [PUT_stored w s element ho hv ha]
            simp [ServerTransferType.call]
          · rw [PUT_stored w s element ho hv ha]
            simp [ServerTransferType.call, STATUS_OK]
        · refine ⟨[ServerCall.Authorize element, ServerCall.Destroy,
            ServerCall.Submit (Received.PUT w s element)._response], ?_, ?_⟩
          · rw [PUT_denied w s element ho hv ha]
            simp [ServerTransferType.call]
          · rw [PUT_denied w s element ho hv ha]
            simp [ServerTransferType.call, STATUS_UNAUTHORIZED]
      · have hv2 : s._ValidateHash element.ContentSignature = false := by simpa using hv
        refine ⟨[ServerCall.Destroy,
            ServerCall.Submit (Received.PUT w s element)._response], ?_, ?_⟩
        · rw [PUT_bad_signature w s element ho hv2]
          simp [ServerTransferType.call]
        · rw [PUT_bad_signature w s element ho hv2]
          simp [ServerTransferType.call, STATUS_UNAUTHORIZED]
    · have ho2 : s._fileBody.file.IsOpen = false := by simpa using ho
      refine ⟨[ServerCall.Submit (Received.PUT w s element)._response], ?_, ?_⟩
      · rw [PUT_not_open w s element ho2]
        simp [ServerTransferType.call]
      · rw [PUT_not_open w s element ho2]
        simp [ServerTransferType.call, STATUS_NOT_FOUND]

/-- Witness of C12: a PUT on a server whose file is not open, one with a signature that
does not match, one that Authorize rejects and one that is stored. -/
theorem put_received_witness :
    (sampleServer.Received serverWorld putRequest)._response.ErrorCode = 404 ∧
    (receivingServer.Received serverWorld putRequestSigned)._response.ErrorCode = 401 ∧
    (receivingServer.Received serverWorldDenies putRequest)._response.Message = "denied" ∧
    (receivingServer.Received serverWorld putRequest).trace =
      receivingServer.trace ++ [ServerCall.Authorize putRequest, ServerCall.FileClose,
        ServerCall.Submit (receivingServer.Received serverWorld putRequest)._response] :=
  ⟨((put_received serverWorld sampleServer putRequest rfl).1 rfl).1,
   ((put_received serverWorld receivingServer putRequestSigned rfl).2.1 rfl (by decide)).1,
   ((put_received serverWorldDenies receivingServer putRequest rfl).2.2.1 rfl (by decide)
      (by decide)).2.1,
   ((put_received serverWorld receivingServer putRequest rfl).2.2.2.1 rfl (by decide)
      (by decide)).2.2.1⟩

namespace ServerTransferType

theorem GET_missing (w : ServerWorld) (s : ServerTransferType) (element : Request)
    (he : (w.lookup (s._pathPrefix ++ element.Path)).Exists = false) :
    Received.GET w s element =
      { s with
        _response := { s._response with
          ErrorCode := STATUS_NOT_FOUND
          Message := "File: " ++ element.Path ++ " was not found server side." }
        _fileBody := { s._fileBody with
          file := { w.lookup (s._pathPrefix ++ element.Path) with
                    Name := s._pathPrefix ++ element.Path } }
        trace := s.trace ++ [ServerCall.Assign (s._pathPrefix ++ element.Path)] } := by
  simp [Received.GET, assign, ServerTransferType.call, he]

theorem GET_denied (w : ServerWorld) (s : ServerTransferType) (element : Request)
    (he : (w.lookup (s._pathPrefix ++ element.Path)).Exists = true)
    (ha : w.Authorize element ≠ "") :
    Received.GET w s element =
      { s with
        _response := { s._response with
          ErrorCode := STATUS_UNAUTHORIZED
          Message := w.Authorize element }
        _fileBody := { s._fileBody with
          file := { w.lookup (s._pathPrefix ++ element.Path) with
                    Name := s._pathPrefix ++ element.Path } }
        trace := s.trace ++ [ServerCall.Assign (s._pathPrefix ++ element.Path),
                             ServerCall.Authorize element] } := by
  simp [Received.GET, assign, ServerTransferType.call, he, ha]

theorem GET_served_eq (w : ServerWorld) (s : ServerTransferType) (element : Request)
    (he : (w.lookup (s._pathPrefix ++ element.Path)).Exists = true)
    (ha : w.Authorize element = "") :
    Received.GET w s element =
      { _CalculateHash { s with
          _fileBody := { s._fileBody with
            file := { w.lookup (s._pathPrefix ++ element.Path) with
                      Name := s._pathPrefix ++ element.Path } }
          trace := s.trace ++ [ServerCall.Assign (s._pathPrefix ++ element.Path),
                               ServerCall.Authorize element] } with
        _response := { (_CalculateHash { s with
          _fileBody := { s._fileBody with
            file := { w.lookup (s._pathPrefix ++ element.Path) with
                      Name := s._pathPrefix ++ element.Path } }
          trace := s.trace ++ [ServerCall.Assign (s._pathPrefix ++ element.Path),
                               ServerCall.Authorize element] })._response with
          Body := some Object._fileBody } } := by
  simp [Received.GET, assign, ServerTransferType.call, he, ha]

theorem GET_served (w : ServerWorld) (s : ServerTransferType) (element : Request)
    (he : (w.lookup (s._pathPrefix ++ element.Path)).Exists = true)
    (ha : w.Authorize element = "") :
    (Received.GET w s element).trace =
      s.trace ++ [ServerCall.Assign (s._pathPrefix ++ element.Path),
                  ServerCall.Authorize element] ∧
    (Received.GET w s element)._response.ErrorCode = s._response.ErrorCode ∧
    (Received.GET w s element)._response.Message = s._response.Message ∧
    (Received.GET w s element)._response.Body = some Object._fileBody := by
  rw [GET_served_eq w s element he ha]
  refine ⟨?_, ?_, ?_, rfl⟩
  · show (_CalculateHash _).trace = _
    rw [serverHash_trace]
  · show (_CalculateHash _)._response.ErrorCode = _
    rw [CalculateHash_ErrorCode]
  · show (_CalculateHash _)._response.Message = _
    rw [CalculateHash_Message]

end ServerTransferType

/-- C13, the code at the failing input: a server that has answered `GET missing` with
404 receives `GET a.bin` for a file that exists, and Authorize permits it.  The response
it submits has the file-body attached and still carries status 404 and the message of
the earlier answer: the branch does not assign the status. -/
theorem get_keeps_earlier_status :
    answeredServer._response.ErrorCode = 404 ∧
    getRequest.Verb = HTTP_GET ∧
    (serverWorld.lookup (answeredServer._pathPrefix ++ getRequest.Path)).Exists = true ∧
    serverWorld.Authorize getRequest = "" ∧
    (answeredServer.Received serverWorld getRequest)._response.Body = some Object._fileBody ∧
    (answeredServer.Received serverWorld getRequest)._response.ErrorCode = 404 ∧
    (answeredServer.Received serverWorld getRequest)._response.Message =
      "File: missing was not found server side." := by
  refine ⟨?_, rfl, ?_, rfl, ?_, ?_, ?_⟩ <;> decide

open ServerTransferType in
/-- C14: for a request whose verb is neither PUT nor GET, Received produces the response
400 with the message "Unknown command received."; its only call is Submit of that
response, so Authorize is not called and the file-body is neither assigned, created,
closed nor destroyed, and the file-body is unchanged.  LinkBody returns the engine and
the request as they were: no body is attached. -/
theorem other_verb_received (w : ServerWorld) (s : ServerTransferType) (element : Request)
    (hp : element.Verb ≠ HTTP_PUT) (hg : element.Verb ≠ HTTP_GET) :
    (s.Received w element)._response.ErrorCode = 400 ∧
    (s.Received w element)._response.Message = "Unknown command received." ∧
    (s.Received w element).trace =
      s.trace ++ [ServerCall.Submit (s.Received w element)._response] ∧
    (s.Received w element)._fileBody = s._fileBody ∧
    s.LinkBody w element = (s, element) := by
  rw [Received_other w s element hp hg]
  refine ⟨rfl, rfl, rfl, rfl, ?_⟩
  simp [ServerTransferType.LinkBody, hp]

/-- Witness of C14: the request `DELETE a.bin`. -/
theorem other_verb_received_witness :
    (sampleServer.Received serverWorld deleteRequest)._response.ErrorCode = 400 ∧
    (sampleServer.Received serverWorld deleteRequest)._response.Message =
      "Unknown command received." ∧
    (sampleServer.Received serverWorld deleteRequest).trace =
      sampleServer.trace ++
        [ServerCall.Submit (sampleServer.Received serverWorld deleteRequest)._response] ∧
    (sampleServer.Received serverWorld deleteRequest)._fileBody = sampleServer._fileBody ∧
    sampleServer.LinkBody serverWorld deleteRequest = (sampleServer, deleteRequest) :=
  other_verb_received serverWorld sampleServer deleteRequest (by decide) (by decide)

namespace ServerTransferType

theorem PUT_calls (w : ServerWorld) (s : ServerTransferType) (element : Request) :
    ∃ t, (Received.PUT w s element).trace = s.trace ++ t ∧ t.countP isSubmit = 0 ∧
      (Received.PUT w s element)._response.ErrorCode ∈ [200, 401, 404] := by
  by_cases ho : s._fileBody.file.IsOpen = true
  · by_cases hv : s._ValidateHash element.ContentSignature = true
    · by_cases ha : w.Authorize element = ""
      · rw [PUT_stored w s element ho hv ha]
        exact ⟨[ServerCall.Authorize element, ServerCall.FileClose], rfl, by simp [isSubmit],
          by simp [STATUS_OK]⟩
      · rw [PUT_denied w s element ho hv ha]
        exact ⟨[ServerCall.Authorize element, ServerCall.Destroy], rfl, by simp [isSubmit],
          by simp [STATUS_UNAUTHORIZED]⟩
    · rw [PUT_bad_signature w s element ho (by simpa using hv)]
      exact ⟨[ServerCall.Destroy], rfl, by simp [isSubmit], by simp [STATUS_UNAUTHORIZED]⟩
  · rw [PUT_not_open w s element (by simpa using ho)]
    exact ⟨[], by simp, by simp [isSubmit], by simp [STATUS_NOT_FOUND]⟩

theorem GET_calls (w : ServerWorld) (s : ServerTransferType) (element : Request) :
    ∃ t, (Received.GET w s element).trace = s.trace ++ t ∧ t.countP isSubmit = 0 ∧
      (Received.GET w s element)._response.ErrorCode ∈ [s._response.ErrorCode, 401, 404] := by
  by_cases he : (w.lookup (s._pathPrefix ++ element.Path)).Exists = true
  · by_cases ha : w.Authorize element = ""
    · obtain ⟨ht, hc, _, _⟩ := GET_served w s element he ha
      exact ⟨[ServerCall.Assign (s._pathPrefix ++ element.Path), ServerCall.Authorize element],
        ht, by simp [isSubmit], by simp [hc]⟩
    · rw [GET_denied w s element he ha]
      exact ⟨[ServerCall.Assign (s._pathPrefix ++ element.Path), ServerCall.Authorize element],
        rfl, by simp [isSubmit], by simp [STATUS_UNAUTHORIZED]⟩
  · rw [GET_missing w s element (by simpa using he)]
    exact ⟨[ServerCall.Assign (s._pathPrefix ++ element.Path)], rfl, by simp [isSubmit],
      by simp [STATUS_NOT_FOUND]⟩

theorem Received_calls (w : ServerWorld) (s : ServerTransferType) (element : Request) :
    ∃ t, (s.Received w element).trace =
        s.trace ++ t ++ [ServerCall.Submit (s.Received w element)._response] ∧
      t.countP isSubmit = 0 ∧
      (s.Received w element)._response.ErrorCode ∈ [s._response.ErrorCode, 200, 400, 401, 404] := by
  by_cases hp : element.Verb = HTTP_PUT
  · obtain ⟨t, ht, hc, he⟩ := PUT_calls w s element
    rw [Received_PUT w s element hp]
    refine ⟨t, ?_, hc, ?_⟩
    · show (Received.PUT w s element).trace ++ _ = _
      rw [ht]
      rfl
    · show (Received.PUT w s element)._response.ErrorCode ∈ _
      simp only [List.mem_cons, List.mem_singleton, List.not_mem_nil, or_false] at he ⊢
      omega
  · by_cases hg : element.Verb = HTTP_GET
    · obtain ⟨t, ht, hc, he⟩ := GET_calls w s element
      rw [Received_GET w s element hg]
      refine ⟨t, ?_, hc, ?_⟩
      · show (Received.GET w s element).trace ++ _ = _
        rw [ht]
        rfl
      · show (Received.GET w s element)._response.ErrorCode ∈ _
        simp only [List.mem_cons, List.mem_singleton, List.not_mem_nil, or_false] at he ⊢
        omega
    · rw [Received_other w s element hp hg]
      exact ⟨[], by simp [Received.other, ServerTransferType.call], by simp [isSubmit],
        by simp [Received.other, ServerTransferType.call, STATUS_BAD_REQUEST]⟩

end ServerTransferType

namespace ClientTransferType

theorem Download_accepted (w : World) (s : ClientTransferType) (url : URL) (file : File)
    (h : s._state = TRANSFER_IDLE) (hv : url.IsValid = true) (hs : w.Setup url = true) :
    (s.Download w url file).2 =
      if w.link.IsOpen = true then
        { s with
          _state := TRANSFER_DOWNLOAD
          _fileBody := { s._fileBody with file := file.SetPosition 0 }
          _request := { s._request with Verb := HTTP_GET, Path := "/" ++ url.Path, Host := url.Host }
          trace := s.trace ++ [(Call.Setup url, TRANSFER_IDLE),
            (Call.Submit (some { s._request with
              Verb := HTTP_GET, Path := "/" ++ url.Path, Host := url.Host }), TRANSFER_DOWNLOAD)] }
      else
        { s with
          _state := TRANSFER_DOWNLOAD
          _fileBody := { s._fileBody with file := file.SetPosition 0 }
          _request := { s._request with Verb := HTTP_GET, Path := "/" ++ url.Path, Host := url.Host }
          _channel := { s._channel with _request := some Object._request }
          trace := s.trace ++ [(Call.Setup url, TRANSFER_IDLE), (Call.Open 0, TRANSFER_DOWNLOAD)] } := by
  unfold Download
  simp only [h, hv, hs, if_true, Channel.StartTransfer]
  split <;> simp [call, deref, FileBody.assign, h]

theorem CalculateHash_Verb (s : ClientTransferType) :
    s._CalculateHash._request.Verb = s._request.Verb := by
  unfold _CalculateHash
  cases s._fileBody.Hash <;> rfl

theorem CalculateHash_Path (s : ClientTransferType) :
    s._CalculateHash._request.Path = s._request.Path := by
  unfold _CalculateHash
  cases s._fileBody.Hash <;> rfl

theorem CalculateHash_Host (s : ClientTransferType) :
    s._CalculateHash._request.Host = s._request.Host := by
  unfold _CalculateHash
  cases s._fileBody.Hash <;> rfl

theorem CalculateHash_Body (s : ClientTransferType) :
    s._CalculateHash._request.Body = s._request.Body := by
  unfold _CalculateHash
  cases s._fileBody.Hash <;> rfl

theorem CalculateHash_none (s : ClientTransferType) (hh : s._fileBody.Hash = none) :
    s._CalculateHash = s := by
  simp only [_CalculateHash, hh]

theorem CalculateHash_small (s : ClientTransferType) (hash : HashType)
    (hh : s._fileBody.Hash = some hash)
    (hp : s._fileBody.file.Position ≤ s._fileBody.file.Size)
    (hs : s._fileBody.file.Size < 2 ^ 32) :
    s._CalculateHash._request.ContentSignature =
      some ⟨hash.kind, hash.algorithm (s._fileBody.file.content s._fileBody.file.Position
        (s._fileBody.file.Size - s._fileBody.file.Position))⟩ ∧
    s._CalculateHash._fileBody.file = s._fileBody.file := by
  obtain ⟨chunks, hl, _, hf⟩ :=
    _CalculateHash.loop_feeds (s._fileBody.file.Size - s._fileBody.file.Position)
      (s._fileBody.file.Size - s._fileBody.file.Position) s._fileBody.file hash.Reset
      (Nat.le_refl _)
  rw [CalculateHash_eq s hash hh s._fileBody.file.Position
    (s._fileBody.file.Size - s._fileBody.file.Position) (by omega) (by omega), hl]
  refine ⟨?_, rfl⟩
  simp only [HashType.Result, HashType.Reset, List.nil_append, hf]

/-- The engine inside `Upload` once the request has been built and before
`_CalculateHash`. -/
theorem Upload_accepted (w : World) (s : ClientTransferType) (url : URL) (source : File)
    (h : s._state = TRANSFER_IDLE) (hv : url.IsValid = true) (hs : w.Setup url = true) :
    s.Upload w url source =
      Channel.StartTransfer w
        (_CalculateHash
          { s with
            _state := TRANSFER_UPLOAD
            _fileBody := { s._fileBody with file := source }
            _request := { s._request with
              Verb := HTTP_PUT, Path := "/" ++ url.Path, Host := url.Host,
              Body := some Object._fileBody }
            trace := s.trace ++ [(Call.Setup url, TRANSFER_IDLE)] })
        (some Object._request) := by
  unfold Upload
  simp only [h, hv, hs, if_true]
  simp [call, FileBody.assign, h]

theorem StartTransfer_request (w : World) (s : ClientTransferType) :
    (Channel.StartTransfer w s (some Object._request)).2._request = s._request := by
  unfold Channel.StartTransfer
  split <;> rfl

theorem StartTransfer_fileBody (w : World) (s : ClientTransferType) (request : ProxyType) :
    (Channel.StartTransfer w s request).2._fileBody = s._fileBody := by
  unfold Channel.StartTransfer
  split <;> rfl

end ClientTransferType

/-- C16, the claim as written fails: on the engine that has completed an Upload and is
Idle again, an accepted Download submits a GET request that still has the file-body
attached as its body, and still carries the content signature of the upload. -/
theorem download_keeps_body :
    afterUpload._state = TRANSFER_IDLE ∧
    (afterUpload.Download worldOpen sampleURL sampleFile).1 = ERROR_NONE ∧
    (afterUpload.Download worldOpen sampleURL sampleFile).2._request.Verb = HTTP_GET ∧
    (afterUpload.Download worldOpen sampleURL sampleFile).2._request.Body =
      some Object._fileBody ∧
    (afterUpload.Download worldOpen sampleURL sampleFile).2._request.ContentSignature ≠ none ∧
    (afterUpload.Download worldOpen sampleURL sampleFile).2.trace.getLast? =
      some (Call.Submit (some (afterUpload.Download worldOpen sampleURL sampleFile).2._request),
        TRANSFER_DOWNLOAD) := by
  refine ⟨?_, ?_, ?_, ?_, ?_, ?_⟩ <;> decide

/-- C16 as amended: on an idle engine, after a Download that is accepted, the request
handed to the channel has verb GET, path "/" followed by the path of the URL and host
equal to the host of the URL; Download does not touch the body reference and the content
signature of the request, which are the ones the request had before the call (none on an
engine that has not uploaded, the file-body and its signature after an Upload).  The
file-body is the destination file with its cursor at offset 0.  With the link open the
request is submitted; otherwise the channel caches the handle of the request and calls
Open(0). -/
theorem download_request (w : World) (s : ClientTransferType) (url : URL) (file : File)
    (h : s._state = TRANSFER_IDLE) (hv : url.IsValid = true) (hs : w.Setup url = true) :
    (s.Download w url file).2._request.Verb = HTTP_GET ∧
    (s.Download w url file).2._request.Path = "/" ++ url.Path ∧
    (s.Download w url file).2._request.Host = url.Host ∧
    (s.Download w url file).2._request.Body = s._request.Body ∧
    (s.Download w url file).2._request.ContentSignature = s._request.ContentSignature ∧
    (s.Download w url file).2._fileBody.file = file.SetPosition 0 ∧
    (s.Download w url file).2._fileBody.file.Position = 0 ∧
    (w.link.IsOpen = true →
      (s.Download w url file).2.trace = s.trace ++ [(Call.Setup url, TRANSFER_IDLE),
        (Call.Submit (some (s.Download w url file).2._request), TRANSFER_DOWNLOAD)]) ∧
    (w.link.IsOpen = false →
      (s.Download w url file).2._channel._request = some Object._request ∧
      (s.Download w url file).2.deref (some Object._request) =
        some (s.Download w url file).2._request ∧
      (s.Download w url file).2.trace = s.trace ++ [(Call.Setup url, TRANSFER_IDLE),
        (Call.Open 0, TRANSFER_DOWNLOAD)]) := by
  rw [Download_accepted w s url file h hv hs]
  by_cases ho : w.link.IsOpen = true
  · rw [if_pos ho]
    exact ⟨rfl, rfl, rfl, rfl, rfl, rfl, rfl, fun _ => rfl, fun hn => by simp [ho] at hn⟩
  · rw [if_neg ho]
    exact ⟨rfl, rfl, rfl, rfl, rfl, rfl, rfl, fun hn => absurd hn ho, fun _ => ⟨rfl, rfl, rfl⟩⟩

/-- Witness of C16 as amended: a Download on the engine as constructed, with the link
open and with the link closed. -/
theorem download_request_witness :
    (idleEngine.Download worldOpen sampleURL sampleFile).2._request.Path = "/" ++ sampleURL.Path ∧
    (idleEngine.Download worldOpen sampleURL sampleFile).2._request.Body = none ∧
    (idleEngine.Download worldClosed sampleURL sampleFile).2._channel._request =
      some Object._request :=
  ⟨(download_request worldOpen idleEngine sampleURL sampleFile rfl rfl rfl).2.1,
   (download_request worldOpen idleEngine sampleURL sampleFile rfl rfl rfl).2.2.2.1,
   ((download_request worldClosed idleEngine sampleURL sampleFile rfl rfl rfl).2.2.2.2.2.2.2.2
      rfl).1⟩

/-- C17, the claim as written fails: Upload of a 100-byte source file whose cursor is at
offset 10, on the idle engine with the hash capability, builds a request whose content
signature is the digest of bytes 10 to 99, not the digest of the file. -/
theorem upload_signs_from_cursor :
    idleEngine._state = TRANSFER_IDLE ∧ seekedFile.Position = 10 ∧ seekedFile.Size = 100 ∧
    (idleEngine.Upload worldOpen sampleURL seekedFile).1 = ERROR_NONE ∧
    (idleEngine.Upload worldOpen sampleURL seekedFile).2._request.ContentSignature =
      some ⟨sampleHash.kind, sampleHash.algorithm (seekedFile.content 10 90)⟩ ∧
    (idleEngine.Upload worldOpen sampleURL seekedFile).2._request.ContentSignature ≠
      some ⟨sampleHash.kind, sampleHash.algorithm (seekedFile.content 0 100)⟩ := by
  refine ⟨rfl, rfl, rfl, ?_, ?_, ?_⟩ <;> decide

/-- C17 as amended: on an idle engine, for a valid URL that Setup accepts and every
source file, after Upload the request handed to the channel has verb PUT, path "/"
followed by the path of the URL, host equal to the host of the URL and the engine's
file-body attached as its body; with the link open it is submitted, otherwise the
channel caches its handle.  Without the hash capability the file-body is the source
file.  With the hash capability, for a source file smaller than 2^32 bytes with its
cursor within the file, the file-body is the source file and the content signature is
(hash kind, digest of the file content from the cursor of the source file to its end),
which is the digest of the file when that cursor is at offset 0. -/
theorem upload_request (w : World) (s : ClientTransferType) (url : URL) (source : File)
    (h : s._state = TRANSFER_IDLE) (hv : url.IsValid = true) (hs : w.Setup url = true) :
    (s.Upload w url source).2._request.Verb = HTTP_PUT ∧
    (s.Upload w url source).2._request.Path = "/" ++ url.Path ∧
    (s.Upload w url source).2._request.Host = url.Host ∧
    (s.Upload w url source).2._request.Body = some Object._fileBody ∧
    (w.link.IsOpen = true →
      (s.Upload w url source).2.trace = s.trace ++ [(Call.Setup url, TRANSFER_IDLE),
        (Call.Submit (some (s.Upload w url source).2._request), TRANSFER_UPLOAD)]) ∧
    (w.link.IsOpen = false →
      (s.Upload w url source).2._channel._request = some Object._request) ∧
    (s._fileBody.Hash = none → (s.Upload w url source).2._fileBody.file = source) ∧
    (∀ hash, s._fileBody.Hash = some hash → source.Position ≤ source.Size →
      source.Size < 2 ^ 32 →
      (s.Upload w url source).2._fileBody.file = source ∧
      (s.Upload w url source).2._request.ContentSignature =
        some ⟨hash.kind, hash.algorithm
          (source.content source.Position (source.Size - source.Position))⟩ ∧
      (source.Position = 0 →
        (s.Upload w url source).2._request.ContentSignature =
          some ⟨hash.kind, hash.algorithm (source.content 0 source.Size)⟩)) := by
  rw [Upload_accepted w s url source h hv hs]
  refine ⟨?_, ?_, ?_, ?_, fun ho => ?_, fun ho => ?_, fun hh => ?_, fun hash hh hp hz => ?_⟩
  · rw [StartTransfer_request, CalculateHash_Verb]
  · rw [StartTransfer_request, CalculateHash_Path]
  · rw [StartTransfer_request, CalculateHash_Host]
  · rw [StartTransfer_request, CalculateHash_Body]
  · simp only [Channel.StartTransfer, ho, if_true, call, deref, CalculateHash_trace,
      CalculateHash_state, List.append_assoc, List.singleton_append]
  · simp [Channel.StartTransfer, ho, call]
  · have hn := CalculateHash_none
      { s with
        _state := TRANSFER_UPLOAD
        _fileBody := { s._fileBody with file := source }
        _request := { s._request with
          Verb := HTTP_PUT, Path := "/" ++ url.Path, Host := url.Host,
          Body := some Object._fileBody }
        trace := s.trace ++ [(Call.Setup url, TRANSFER_IDLE)] } hh
    rw [StartTransfer_fileBody, hn]
  · have hsm := CalculateHash_small
      { s with
        _state := TRANSFER_UPLOAD
        _fileBody := { s._fileBody with file := source }
        _request := { s._request with
          Verb := HTTP_PUT, Path := "/" ++ url.Path, Host := url.Host,
          Body := some Object._fileBody }
        trace := s.trace ++ [(Call.Setup url, TRANSFER_IDLE)] } hash hh hp hz
    rw [StartTransfer_fileBody, StartTransfer_request]
    refine ⟨hsm.2, hsm.1, fun h0 => ?_⟩
    rw [hsm.1]
    show some (Signature.mk hash.kind (hash.algorithm
      (source.content source.Position (source.Size - source.Position)))) = _
    rw [h0, Nat.sub_zero]

/-- Witness of C17 as amended: Upload of the 100-byte file with the cursor at its start
to `http://h/p`. -/
theorem upload_request_witness :
    (idleEngine.Upload worldOpen sampleURL sampleFile).2._request.Path = "/" ++ sampleURL.Path ∧
    (idleEngine.Upload worldOpen sampleURL sampleFile).2._request.Host = "h" ∧
    (idleEngine.Upload worldOpen sampleURL sampleFile).2._request.ContentSignature =
      some ⟨sampleHash.kind, sampleHash.algorithm (sampleFile.content 0 sampleFile.Size)⟩ :=
  ⟨(upload_request worldOpen idleEngine sampleURL sampleFile rfl rfl rfl).2.1,
   (upload_request worldOpen idleEngine sampleURL sampleFile rfl rfl rfl).2.2.1,
   ((upload_request worldOpen idleEngine sampleURL sampleFile rfl rfl rfl).2.2.2.2.2.2.2
      sampleHash rfl (by decide) (by decide)).2.2 rfl⟩

/-! ## LinkBody, StateChange and the assertions of StartTransfer -/

/-- C18: for every transfer state and every response, LinkBody attaches the engine's
file-body as the body of the response and never changes the transfer state.  When the
state is Download and the Content-Length of the response is set, the only change to the
engine is that the cursor of the file-body is at offset 0; in every other case (state
Upload or Idle, or Content-Length absent) the engine, and so the cursor, is unchanged. -/
theorem LinkBody_cursor (s : ClientTransferType) (element : Response) :
    (s.LinkBody element).2 = { element with Body := some Object._fileBody } ∧
    (s.LinkBody element).1._state = s._state ∧
    ((s._state = TRANSFER_DOWNLOAD ∧ element.ContentLength.isSome = true) →
      (s.LinkBody element).1 =
        { s with _fileBody := { s._fileBody with file := s._fileBody.file.SetPosition 0 } } ∧
      (s.LinkBody element).1._fileBody.file.Position = 0) ∧
    (¬ (s._state = TRANSFER_DOWNLOAD ∧ element.ContentLength.isSome = true) →
      (s.LinkBody element).1 = s ∧
      (s.LinkBody element).1._fileBody.file.Position = s._fileBody.file.Position) := by
  refine ⟨rfl, ?_, fun hc => ?_, fun hc => ?_⟩
  · unfold ClientTransferType.LinkBody
    split <;> rfl
  · unfold ClientTransferType.LinkBody
    rw [if_pos hc]
    exact ⟨rfl, rfl⟩
  · unfold ClientTransferType.LinkBody
    rw [if_neg hc]
    exact ⟨rfl, rfl⟩

/-- Witness of C18: a response with a content length on a download in progress, at
cursor 5, and the same response on an upload in progress. -/
theorem LinkBody_cursor_witness :
    (shortDownload.LinkBody responseLength10).1._fileBody.file.Position = 0 ∧
    (uploadingEngine.LinkBody responseLength10).1 = uploadingEngine :=
  ⟨((LinkBody_cursor shortDownload responseLength10).2.2.1 ⟨rfl, rfl⟩).2,
   ((LinkBody_cursor uploadingEngine responseLength10).2.2.2 (by decide)).1⟩

/-- C19: for every StateChange notification.  Link open: the only effect is the call
Submit of the cached request; EndTransfer is not entered (no Transfered, state
unchanged).  Link not open, and closed or suspended or a response stored: the engine is
the one EndTransfer produces for the stored response, with that response released.  So
when the link is not open and closed or suspended and no response is stored (the link
failed to open, or was suspended before any response), the transfer ends with
Transfered(Unavailable, file-body) and state Idle. -/
theorem StateChange_cases (link : LinkState) (s : ClientTransferType) :
    (link.IsOpen = true →
      Channel.StateChange link s = s.call (Call.Submit (s.deref s._channel._request)) ∧
      (Channel.StateChange link s)._state = s._state ∧
      transferedCount (Channel.StateChange link s).trace = transferedCount s.trace) ∧
    (link.IsOpen = false →
      (s._channel._response.isSome = true ∨ link.IsClosed = true ∨ link.IsSuspended = true) →
      Channel.StateChange link s =
        { (s.EndTransfer s._channel._response).1 with
          _channel := { (s.EndTransfer s._channel._response).1._channel with
                        _response := (s.EndTransfer s._channel._response).2 } } ∧
      (Channel.StateChange link s)._state = TRANSFER_IDLE ∧
      (Channel.StateChange link s).trace = s.trace ++
        [(Call.Transfered
            (statusTable s._state s._channel._response s.Transferred s._fileBody.file.stored
              s._ValidateHash)
            Object._fileBody, TRANSFER_IDLE)]) ∧
    (link.IsOpen = false → (link.IsClosed = true ∨ link.IsSuspended = true) →
      s._channel._response = none →
      (Channel.StateChange link s)._state = TRANSFER_IDLE ∧
      (Channel.StateChange link s).trace = s.trace ++
        [(Call.Transfered ERROR_UNAVAILABLE Object._fileBody, TRANSFER_IDLE)]) := by
  refine ⟨fun ho => ?_, fun ho hc => ?_, fun ho hc hr => ?_⟩
  · rw [StateChange_open link s ho]
    refine ⟨rfl, rfl, ?_⟩
    rw [transferedCount_call]
    simp [isTransfered]
  · rw [StateChange_ends link s ho hc]
    exact ⟨rfl, EndTransfer_state s s._channel._response,
      EndTransfer_trace_table s s._channel._response⟩
  · rw [StateChange_ends link s ho (Or.inr hc)]
    refine ⟨EndTransfer_state s s._channel._response, ?_⟩
    show (s.EndTransfer s._channel._response).1.trace = _
    rw [EndTransfer_trace, hr]

/-- Witness of C19: the uploading engine told that the link is open, and told that the
link is suspended before any response. -/
theorem StateChange_cases_witness :
    (Channel.StateChange linkOpen uploadingEngine)._state = TRANSFER_UPLOAD ∧
    (Channel.StateChange linkSuspended uploadingEngine)._state = TRANSFER_IDLE ∧
    (Channel.StateChange linkSuspended uploadingEngine).trace = uploadingEngine.trace ++
      [(Call.Transfered ERROR_UNAVAILABLE Object._fileBody, TRANSFER_IDLE)] :=
  ⟨((StateChange_cases linkOpen uploadingEngine).1 rfl).2.1,
   ((StateChange_cases linkSuspended uploadingEngine).2.2 rfl (Or.inr rfl) rfl).1,
   ((StateChange_cases linkSuspended uploadingEngine).2.2 rfl (Or.inr rfl) rfl).2⟩

/-- C20, the code at the failing input: an Upload accepted with the link closed caches
the request in the channel; after StateChange (open), Send, LinkBody, Received and
StateChange (closed) the transfer is complete and the state is Idle, but the channel
still holds the cached request, so the first assertion of StartTransfer is false when
the next Upload, accepted without a Close() in between, reaches it. -/
theorem cached_request_survives :
    (idleEngine.Upload worldClosed sampleURL sampleFile).1 = ERROR_NONE ∧
    afterOpenedUpload._state = TRANSFER_IDLE ∧
    transferedCount afterOpenedUpload.trace = 1 ∧
    afterOpenedUpload._channel._request = some Object._request ∧
    afterOpenedUpload._channel._response = none ∧
    Channel.StartTransfer.ASSERT afterOpenedUpload = false ∧
    (afterOpenedUpload.Upload worldClosed sampleURL sampleFile).1 = ERROR_NONE ∧
    (afterOpenedUpload.Upload worldClosed sampleURL sampleFile).2._state = TRANSFER_UPLOAD := by
  refine ⟨?_, ?_, ?_, ?_, ?_, ?_, ?_, ?_⟩ <;> decide

end Web
end WPEFramework
